import Mathlib

/-
Verification development for the vercel_blob Go client library.

The Go sources are shallowly embedded as Lean definitions:
  - error.go              -> GoErr and its constructors
  - client.go             -> Client, addAuthorizationHeader, handleError and the
                             single-shot operations (List, Put, Head, Delete, Copy, Download)
  - multipart.go          -> Client.putMultipart and its part-upload loop
  - client_token.go       -> GenerateClientToken, TokenProvider

HTTP is modelled by an oracle (a function from requests to responses); every
operation returns its result together with the list of requests it issued, in
order.  Machine integers (Go int, int64, uint64) are modelled as Nat or Int;
byte strings are lists of Nat (each < 256 where it matters).  The response body
is modelled by its status, its ETag header, its raw bytes, and the results of
the JSON decodings that the client performs on it (a None decoding result
models a body on which encoding/json.Decode fails).
-/

namespace VercelBlob

/-! ## error.go -/

/-- Error, the type of all taxonomy errors raised by the library (error.go). -/
structure GoErr where
  Msg : String
  Code : String
deriving DecidableEq, Repr

def ErrNotAuthenticated : GoErr :=
  { Msg := "No authentication token. Expected environment variable BLOB_READ_WRITE_TOKEN to contain a token"
    Code := "not_authenticated" }

def ErrBadRequest (msg : String) : GoErr :=
  { Msg := "Invalid request: " ++ msg, Code := "bad_request" }

def ErrForbidden : GoErr :=
  { Msg := "Access denied, please provide a valid token for this resource", Code := "forbidden" }

def ErrStoreNotFound : GoErr :=
  { Msg := "The requested store does not exist", Code := "store_not_found" }

def ErrStoreSuspended : GoErr :=
  { Msg := "The requested store has been suspended", Code := "store_suspended" }

def ErrBlobNotFound : GoErr :=
  { Msg := "The requested blob does not exist", Code := "not_found" }

def NewUnknownError (statusCode : Nat) (message : String) : GoErr :=
  { Msg := "Unknown error, please visit https://vercel.com/help (" ++ toString statusCode ++ "): " ++ message
    Code := "unknown_error" }

def NewInvalidInputError (field : String) : GoErr :=
  { Msg := field ++ " is required", Code := "invalid_input" }

/-- A Go error value as returned by the client: either a taxonomy error
(error.go's Error type), the raw error returned by encoding/json Decode on an
undecodable body, or the raw error returned by the body reader. -/
inductive ClientError where
  | api (e : GoErr)
  | jsonDecodeError
  | readError (msg : String)
deriving DecidableEq, Repr

/-- ClientError.errCode: the taxonomy code carried by an error, none for raw
non-taxonomy errors (json decode errors, reader errors). -/
def ClientError.errCode : ClientError → Option String
  | .api e => some e.Code
  | .jsonDecodeError => none
  | .readError _ => none

/-! ## Data types (types.go, client.go, multipart.go) -/

structure BlobAPIErrorDetail where
  code : String
  message : String
deriving DecidableEq, Repr

structure BlobAPIError where
  error : BlobAPIErrorDetail
deriving DecidableEq, Repr

structure ListBlobResultBlob where
  URL : String
  PathName : String
  Size : Nat
  UploadedAt : Nat
deriving DecidableEq, Repr

structure ListBlobResult where
  Blobs : List ListBlobResultBlob
  Folders : List String
  Cursor : String
  HasMore : Bool
deriving DecidableEq, Repr

structure ListCommandOptions where
  Limit : Nat
  Pfx : String
  Cursor : String
  Mode : String
deriving DecidableEq, Repr

structure PutCommandOptions where
  AddRandomSuffix : Bool
  CacheControlMaxAge : Nat
  ContentType : String
  Access : String
deriving DecidableEq, Repr

structure PutBlobPutResult where
  URL : String
  Pathname : String
  ContentType : String
  ContentDisposition : String
deriving DecidableEq, Repr

structure HeadBlobResult where
  URL : String
  Size : Nat
  UploadedAt : Nat
  Pathname : String
  ContentType : String
  ContentDisposition : String
  CacheControl : String
deriving DecidableEq, Repr

structure ByteRangeSpec where
  Start : Nat
  RangeEnd : Nat
deriving DecidableEq, Repr

structure DownloadCommandOptions where
  ByteRange : Option ByteRangeSpec
deriving DecidableEq, Repr

structure CreateMultipartUploadResponse where
  UploadID : String
  Key : String
deriving DecidableEq, Repr

/-- Part of a multipart upload (multipart.go). -/
structure Part where
  ETag : String
  PartNumber : Nat
deriving DecidableEq, Repr

structure CompleteMultipartUploadRequest where
  UploadID : String
  Key : String
  Parts : List Part
deriving DecidableEq, Repr

/-! ## HTTP model -/

inductive HttpMethod where
  | get
  | put
  | post
deriving DecidableEq, Repr

/-- The body attached to an outgoing request.  JSON-marshalled bodies are kept
as the marshalled value (json.Marshal on these structs cannot fail). -/
inductive RequestBody where
  | empty
  | bytes (data : List Nat)
  | deleteJson (urls : List String)
  | completeJson (r : CompleteMultipartUploadRequest)
deriving DecidableEq, Repr

structure Request where
  method : HttpMethod
  url : String
  query : List (String × String)
  headers : List (String × String)
  body : RequestBody
deriving DecidableEq, Repr

/-- http.Header.Set: replaces the value stored for the key, otherwise appends.
Go headers are an unordered map updated in place; headers here are association
lists with unique keys (always built from [] through setHeader), and no
theorem below depends on list order. -/
def setHeader : List (String × String) → String → String → List (String × String)
  | [], key, value => [(key, value)]
  | p :: rest, key, value =>
    if p.1 = key then (key, value) :: rest else p :: setHeader rest key value

/-- Header.Get: the value stored for a key, if any. -/
def getHeader : List (String × String) → String → Option String
  | [], _ => none
  | p :: rest, key => if p.1 = key then some p.2 else getHeader rest key

/-- An HTTP response, with the body abstracted by its raw bytes plus the
results of the JSON decodings the client performs on it.  A None field models
a body on which the corresponding encoding/json.Decode call fails. -/
structure Response where
  statusCode : Nat
  etag : String
  bodyBytes : List Nat
  errorBody : Option BlobAPIError
  createBody : Option CreateMultipartUploadResponse
  putResultBody : Option PutBlobPutResult
  headBody : Option HeadBlobResult
  listBody : Option ListBlobResult

/-- The HTTP transport: http.Client.Do modelled as a function from the request
to the response.  Transport-level failures are out of scope of the claims. -/
def Oracle : Type := Request → Response

/-- net/http.StatusText, restricted to the codes exercised here. -/
def statusText (code : Nat) : String :=
  match code with
  | 200 => "OK"
  | 206 => "Partial Content"
  | 400 => "Bad Request"
  | 401 => "Unauthorized"
  | 403 => "Forbidden"
  | 404 => "Not Found"
  | 500 => "Internal Server Error"
  | 502 => "Bad Gateway"
  | 503 => "Service Unavailable"
  | 504 => "Gateway Timeout"
  | _ => ""

/-! ## client.go: the client and its helpers -/

/-- BlobAPIVersion, DefaultBaseURL, MultipartThreshold (client.go). -/
def BlobAPIVersion : String := "9"

def DefaultBaseURL : String := "https://blob.vercel-storage.com"

/-- MultipartThreshold is the minimum size for multipart uploads (5MB). -/
def MultipartThreshold : Nat := 5 * 1024 * 1024

/-- A TokenProvider: GetToken(operation, pathname) returning (token, error).
The environment variable BLOB_READ_WRITE_TOKEN is captured in envToken. -/
structure Client where
  tokenProvider : Option (String → String → String × Option GoErr)
  envToken : String
  baseURL : String
  apiVersion : String

/-- The token the client resolves for an operation: client.go lines 80-85.
When a provider is configured, its error is discarded (token, _ = GetToken). -/
def Client.resolveToken (c : Client) (operation pathname : String) : String :=
  match c.tokenProvider with
  | some provider => (provider operation pathname).1
  | none => c.envToken

/-- Client.getAPIURL: url.Parse(baseURL) with Path set to pathname; for a
host-only base URL, url.URL.String inserts a slash before a path that does not
already start with one. -/
def Client.getAPIURL (c : Client) (pathname : String) : String :=
  c.baseURL ++ (if pathname.data.head? = some '/' then pathname else "/" ++ pathname)

def Client.addAPIVersionHeader (c : Client) (req : Request) : Request :=
  { req with headers := setHeader req.headers "x-api-version" c.apiVersion }

/-- Client.addAuthorizationHeader (client.go lines 79-93): resolve a token from
the provider or the environment variable; an empty token is ErrNotAuthenticated
and the header is not set. -/
def Client.addAuthorizationHeader (c : Client) (req : Request) (operation pathname : String) :
    Except GoErr Request :=
  let token := c.resolveToken operation pathname
  if token = "" then .error ErrNotAuthenticated
  else .ok { req with headers := setHeader req.headers "Authorization" ("Bearer " ++ token) }

/-- The pattern _ = c.addAuthorizationHeader(req, ...) used by Head, Delete,
Copy, Download and putMultipart: the error is discarded, and the request is
left without an Authorization header when no token resolves. -/
def Client.addAuthorizationHeaderIgnored (c : Client) (req : Request) (operation pathname : String) :
    Request :=
  match c.addAuthorizationHeader req operation pathname with
  | .ok r => r
  | .error _ => req

/-- Client.handleError (client.go lines 95-120).  The receiver is unused in the
source and dropped here.  Note the decode-failure branch returns the raw json
error (return err), not a taxonomy error. -/
def handleError (resp : Response) : ClientError :=
  if resp.statusCode ≥ 500 then
    .api (NewUnknownError resp.statusCode (statusText resp.statusCode))
  else
    match resp.errorBody with
    | none => .jsonDecodeError
    | some errResp =>
      match errResp.error.code with
      | "store_suspended" => .api ErrStoreSuspended
      | "forbidden" => .api ErrForbidden
      | "not_found" => .api ErrBlobNotFound
      | "store_not_found" => .api ErrStoreNotFound
      | "bad_request" => .api (ErrBadRequest errResp.error.message)
      | _ => .api (NewUnknownError resp.statusCode errResp.error.message)

/-- Client.setPutHeaders (client.go lines 301-316). -/
def Client.setPutHeaders (c : Client) (req : Request) (options : PutCommandOptions) : Request :=
  let req := if !options.AddRandomSuffix then
      { req with headers := setHeader req.headers "X-Add-Random-Suffix" "0" } else req
  let req := if options.ContentType ≠ "" then
      { req with headers := setHeader req.headers "X-Content-Type" options.ContentType } else req
  let req := if options.CacheControlMaxAge > 0 then
      { req with headers := setHeader req.headers "X-Cache-Control-Max-Age" (toString options.CacheControlMaxAge) } else req
  let access := if options.Access = "" then "public" else options.Access
  { req with headers := setHeader req.headers "X-Access" access }

/-! ## The input stream

An io.Reader is modelled as the list of bytes it will yield followed by what it
reports once they are exhausted: clean EOF (readErr = none) or a read error
(readErr = some msg).  io.ReadFull with the threshold-sized buffer is inlined
in the part-upload loop below, with its exact semantics: a full buffer yields
err = nil; exhaustion yields the remaining bytes with io.EOF (no bytes) or
io.ErrUnexpectedEOF (some bytes); an underlying read error yields the bytes
read so far together with that error. -/

structure ByteStream where
  data : List Nat
  readErr : Option String
deriving DecidableEq, Repr

/-! ## Single-shot operations (client.go) -/

/-- The request Client.List builds (client.go lines 204-229). -/
def Client.listRequest (c : Client) (options : ListCommandOptions) : Except GoErr Request :=
  let q := (if options.Limit > 0 then [("limit", toString options.Limit)] else [])
        ++ (if options.Pfx ≠ "" then [("prefix", options.Pfx)] else [])
        ++ (if options.Cursor ≠ "" then [("cursor", options.Cursor)] else [])
        ++ (if options.Mode ≠ "" then [("mode", options.Mode)] else [])
  let req : Request := { method := .get, url := c.baseURL, query := q, headers := [], body := .empty }
  let req := c.addAPIVersionHeader req
  c.addAuthorizationHeader req "list" ""

/-- Client.List: one GET, decode ListBlobResult on 200, map other statuses
through handleError; a missing token blocks the request. -/
def Client.list (c : Client) (oracle : Oracle) (options : ListCommandOptions) :
    Except ClientError ListBlobResult × List Request :=
  match c.listRequest options with
  | .error e => (.error (.api e), [])
  | .ok req =>
    let resp := oracle req
    if resp.statusCode ≠ 200 then (.error (handleError resp), [req])
    else
      match resp.listBody with
      | none => (.error .jsonDecodeError, [req])
      | some result => (.ok result, [req])

/-- The single-shot PUT request Client.Put builds (client.go lines 269-281).
The outgoing body is the whole stream content. -/
def Client.singleShotPutRequest (c : Client) (pathname : String) (body : ByteStream)
    (options : PutCommandOptions) : Except GoErr Request :=
  let req : Request :=
    { method := .put, url := c.getAPIURL pathname, query := [], headers := [], body := .bytes body.data }
  let req := c.addAPIVersionHeader req
  match c.addAuthorizationHeader req "put" pathname with
  | .error e => .error e
  | .ok req => .ok (c.setPutHeaders req options)

/-! ## multipart.go -/

/-- The part-upload request built inside the loop (multipart.go lines 62-71). -/
def Client.uploadPartRequest (c : Client) (pathname uploadID key : String)
    (partNumber : Nat) (chunk : List Nat) : Request :=
  let req : Request :=
    { method := .put, url := c.getAPIURL "/mpu", query := [], headers := [], body := .bytes chunk }
  let req := c.addAPIVersionHeader req
  let req := c.addAuthorizationHeaderIgnored req "put" pathname
  let req := { req with headers := setHeader req.headers "X-MPU-Action" "upload" }
  let req := { req with headers := setHeader req.headers "X-MPU-Upload-Id" uploadID }
  let req := { req with headers := setHeader req.headers "X-MPU-Key" key }
  { req with headers := setHeader req.headers "X-MPU-Part-Number" (toString partNumber) }

/-- The create request (multipart.go lines 34-42). -/
def Client.createMpuRequest (c : Client) (pathname : String) (options : PutCommandOptions) : Request :=
  let req : Request :=
    { method := .post, url := c.getAPIURL "/mpu", query := [], headers := [], body := .empty }
  let req := c.addAPIVersionHeader req
  let req := c.addAuthorizationHeaderIgnored req "put" pathname
  let req := c.setPutHeaders req options
  { req with headers := setHeader req.headers "X-MPU-Action" "create" }

/-- The complete request (multipart.go lines 95-103). -/
def Client.completeMpuRequest (c : Client) (pathname uploadID key : String) (parts : List Part) :
    Request :=
  let req : Request :=
    { method := .post, url := c.getAPIURL "/mpu", query := [], headers := []
      body := .completeJson { UploadID := uploadID, Key := key, Parts := parts } }
  let req := c.addAPIVersionHeader req
  let req := c.addAuthorizationHeaderIgnored req "put" pathname
  { req with headers := setHeader req.headers "X-MPU-Action" "complete" }

/-- The part-upload loop of Client.putMultipart (multipart.go lines 56-92),
with io.ReadFull(body, buffer) inlined: the outer branch is the ReadFull
outcome (full buffer with err = nil, or the remaining bytes with io.EOF,
io.ErrUnexpectedEOF or the reader error), and the inner structure mirrors the
Go loop body: upload when n > 0 (checking the response status), then break on
EOF or ErrUnexpectedEOF, return on any other read error, loop otherwise.
Returns the accumulated parts and the upload requests issued, in order. -/
def Client.mpuUploadLoop (c : Client) (oracle : Oracle) (pathname uploadID key : String)
    (s : ByteStream) (partNumber : Nat) (parts : List Part) :
    Except ClientError (List Part) × List Request :=
  if h : MultipartThreshold ≤ s.data.length then
    -- ReadFull filled the buffer: n = MultipartThreshold, err = nil
    let chunk := s.data.take MultipartThreshold
    let req := c.uploadPartRequest pathname uploadID key partNumber chunk
    let resp := oracle req
    if resp.statusCode ≠ 200 then (.error (handleError resp), [req])
    else
      let parts := parts ++ [{ ETag := resp.etag, PartNumber := partNumber }]
      let rest := c.mpuUploadLoop oracle pathname uploadID key
        { s with data := s.data.drop MultipartThreshold } (partNumber + 1) parts
      (rest.1, req :: rest.2)
  else
    -- ReadFull drained the stream: n = s.data.length < MultipartThreshold
    let chunk := s.data
    if chunk.length > 0 then
      let req := c.uploadPartRequest pathname uploadID key partNumber chunk
      let resp := oracle req
      if resp.statusCode ≠ 200 then (.error (handleError resp), [req])
      else
        match s.readErr with
        | none => (.ok (parts ++ [{ ETag := resp.etag, PartNumber := partNumber }]), [req])
        | some m => (.error (.readError m), [req])
    else
      match s.readErr with
      | none => (.ok parts, [])
      | some m => (.error (.readError m), [])
termination_by s.data.length
decreasing_by
  have hpos : 0 < MultipartThreshold := by decide
  simp only [List.length_drop]
  omega

/-- Client.putMultipart (multipart.go lines 32-117).  Note the discarded
authorization errors, and the discarded json decode errors on the 200 create
and complete responses (the zero value of the target struct is used). -/
def Client.putMultipart (c : Client) (oracle : Oracle) (pathname : String) (body : ByteStream)
    (options : PutCommandOptions) : Except ClientError PutBlobPutResult × List Request :=
  -- 1. Create Multipart Upload
  let req := c.createMpuRequest pathname options
  let resp := oracle req
  if resp.statusCode ≠ 200 then (.error (handleError resp), [req])
  else
    let createResp := resp.createBody.getD { UploadID := "", Key := "" }
    -- 2. Upload Parts
    match c.mpuUploadLoop oracle pathname createResp.UploadID createResp.Key body 1 [] with
    | (.error e, trace) => (.error e, req :: trace)
    | (.ok parts, trace) =>
      -- 3. Complete
      let creq := c.completeMpuRequest pathname createResp.UploadID createResp.Key parts
      let cresp := oracle creq
      if cresp.statusCode ≠ 200 then (.error (handleError cresp), req :: trace ++ [creq])
      else
        (.ok (cresp.putResultBody.getD { URL := "", Pathname := "", ContentType := "", ContentDisposition := "" }),
         req :: trace ++ [creq])

/-- Client.Put (client.go lines 250-299).  The size probe (a Size method or
io.Seeker capability on the body) is modelled by the size argument: -1 when the
body exposes neither, the reported size otherwise. -/
def Client.put (c : Client) (oracle : Oracle) (pathname : String) (body : ByteStream)
    (size : Int) (options : PutCommandOptions) :
    Except ClientError PutBlobPutResult × List Request :=
  if pathname.length = 0 then (.error (.api (NewInvalidInputError "pathname")), [])
  else if size > (MultipartThreshold : Int) then c.putMultipart oracle pathname body options
  else
    match c.singleShotPutRequest pathname body options with
    | .error e => (.error (.api e), [])
    | .ok req =>
      let resp := oracle req
      if resp.statusCode ≠ 200 then (.error (handleError resp), [req])
      else
        match resp.putResultBody with
        | none => (.error .jsonDecodeError, [req])
        | some result => (.ok result, [req])

/-- The request Client.Head builds (client.go lines 407-413).  The operation
string passed to the token resolution is "put". -/
def Client.headRequest (c : Client) (pathname : String) : Request :=
  let req : Request :=
    { method := .get, url := c.getAPIURL pathname, query := [], headers := [], body := .empty }
  let req := c.addAPIVersionHeader req
  c.addAuthorizationHeaderIgnored req "put" pathname

/-- Client.Head (client.go lines 406-433): 404 short-circuits to
ErrBlobNotFound before handleError; any other non-200 goes through handleError;
the authorization error is discarded, so the request is sent regardless. -/
def Client.head (c : Client) (oracle : Oracle) (pathname : String) :
    Except ClientError HeadBlobResult × List Request :=
  let req := c.headRequest pathname
  let resp := oracle req
  if resp.statusCode = 404 then (.error (.api ErrBlobNotFound), [req])
  else if resp.statusCode ≠ 200 then (.error (handleError resp), [req])
  else
    match resp.headBody with
    | none => (.error .jsonDecodeError, [req])
    | some result => (.ok result, [req])

/-- The request Client.Delete builds for a non-empty url list
(client.go lines 444-449). -/
def Client.deleteHttpRequest (c : Client) (urls : List String) : Request :=
  let req : Request :=
    { method := .post, url := c.getAPIURL "/delete", query := [], headers := []
      body := .deleteJson urls }
  let req := { req with headers := setHeader req.headers "Content-Type" "application/json" }
  let req := c.addAPIVersionHeader req
  c.addAuthorizationHeaderIgnored req "delete" (urls.headD "")

/-- Client.Delete (client.go lines 440-460): zero urls is a no-op returning
success; otherwise one POST whose 200 response is success with no body
interpretation. -/
def Client.delete (c : Client) (oracle : Oracle) (urls : List String) :
    Except ClientError Unit × List Request :=
  if urls.length = 0 then (.ok (), [])
  else
    let req := c.deleteHttpRequest urls
    let resp := oracle req
    if resp.statusCode ≠ 200 then (.error (handleError resp), [req])
    else (.ok (), [req])

/-- The request Client.Copy builds (client.go lines 470-478). -/
def Client.copyRequest (c : Client) (fromURL toPath : String) (options : PutCommandOptions) :
    Request :=
  let req : Request :=
    { method := .put, url := c.getAPIURL toPath, query := [("fromUrl", fromURL)], headers := []
      body := .empty }
  let req := c.addAPIVersionHeader req
  let req := c.addAuthorizationHeaderIgnored req "put" toPath
  c.setPutHeaders req options

/-- Client.Copy (client.go lines 463-491).  The json decode error on the 200
response is discarded (zero value result). -/
def Client.copy (c : Client) (oracle : Oracle) (fromURL toPath : String)
    (options : PutCommandOptions) : Except ClientError PutBlobPutResult × List Request :=
  if fromURL.length = 0 then (.error (.api (NewInvalidInputError "fromURL")), [])
  else if toPath.length = 0 then (.error (.api (NewInvalidInputError "toPath")), [])
  else
    let req := c.copyRequest fromURL toPath options
    let resp := oracle req
    if resp.statusCode ≠ 200 then (.error (handleError resp), [req])
    else
      (.ok (resp.putResultBody.getD { URL := "", Pathname := "", ContentType := "", ContentDisposition := "" }),
       [req])

/-- The request Client.Download builds (client.go lines 495-501). -/
def Client.downloadRequest (c : Client) (urlPath : String) (options : DownloadCommandOptions) :
    Request :=
  let req : Request := { method := .get, url := urlPath, query := [], headers := [], body := .empty }
  let req := c.addAPIVersionHeader req
  let req := c.addAuthorizationHeaderIgnored req "download" urlPath
  match options.ByteRange with
  | none => req
  | some r =>
    let v := "bytes=" ++ toString r.Start ++ "-" ++ toString r.RangeEnd
    { req with headers := setHeader req.headers "range" v }

/-- Client.Download (client.go lines 494-512): 200 and 206 are both success,
returning the raw body bytes. -/
def Client.download (c : Client) (oracle : Oracle) (urlPath : String)
    (options : DownloadCommandOptions) : Except ClientError (List Nat) × List Request :=
  let req := c.downloadRequest urlPath options
  let resp := oracle req
  if resp.statusCode ≠ 200 ∧ resp.statusCode ≠ 206 then (.error (handleError resp), [req])
  else (.ok resp.bodyBytes, [req])

/-! ## Specification helpers for the multipart loop

mpuChunks is the threshold-sized chunking of the stream content: one entry per
read of the loop that returns n > 0 bytes.  uploadReqsFrom and partsFrom spell
out the requests the loop issues and the parts it accumulates for consecutive
part numbers starting at a given one. -/

def mpuChunks (l : List Nat) : List (List Nat) :=
  if h : l = [] then []
  else if MultipartThreshold ≤ l.length then
    l.take MultipartThreshold :: mpuChunks (l.drop MultipartThreshold)
  else [l]
termination_by l.length
decreasing_by
  have hpos : 0 < MultipartThreshold := by decide
  have hlen : 0 < l.length := List.length_pos.mpr h
  simp only [List.length_drop]
  omega

def Client.uploadReqsFrom (c : Client) (pathname uploadID key : String) :
    Nat → List (List Nat) → List Request
  | _, [] => []
  | p, chunk :: rest =>
    c.uploadPartRequest pathname uploadID key p chunk
      :: c.uploadReqsFrom pathname uploadID key (p + 1) rest

def Client.partsFrom (c : Client) (oracle : Oracle) (pathname uploadID key : String) :
    Nat → List (List Nat) → List Part
  | _, [] => []
  | p, chunk :: rest =>
    { ETag := (oracle (c.uploadPartRequest pathname uploadID key p chunk)).etag, PartNumber := p }
      :: c.partsFrom oracle pathname uploadID key (p + 1) rest

/-! ## client_token.go: SHA-256, HMAC, hex encoding, GenerateClientToken

crypto/sha256, crypto/hmac and encoding/hex are modelled in full so that the
token generator is executable.  32-bit words are Nat values reduced mod 2^32. -/

def w32 (n : Nat) : Nat := n % 4294967296

def rotr32 (x n : Nat) : Nat := w32 ((x >>> n) ||| (x <<< (32 - n)))

def shaCh (x y z : Nat) : Nat := (x &&& y) ^^^ ((x ^^^ 4294967295) &&& z)

def shaMaj (x y z : Nat) : Nat := (x &&& y) ^^^ (x &&& z) ^^^ (y &&& z)

def bigSigma0 (x : Nat) : Nat := rotr32 x 2 ^^^ rotr32 x 13 ^^^ rotr32 x 22

def bigSigma1 (x : Nat) : Nat := rotr32 x 6 ^^^ rotr32 x 11 ^^^ rotr32 x 25

def smallSigma0 (x : Nat) : Nat := rotr32 x 7 ^^^ rotr32 x 18 ^^^ (x >>> 3)

def smallSigma1 (x : Nat) : Nat := rotr32 x 17 ^^^ rotr32 x 19 ^^^ (x >>> 10)

def sha256K : Array Nat := #[
  1116352408, 1899447441, 3049323471, 3921009573,
  961987163, 1508970993, 2453635748, 2870763221,
  3624381080, 310598401, 607225278, 1426881987,
  1925078388, 2162078206, 2614888103, 3248222580,
  3835390401, 4022224774, 264347078, 604807628,
  770255983, 1249150122, 1555081692, 1996064986,
  2554220882, 2821834349, 2952996808, 3210313671,
  3336571891, 3584528711, 113926993, 338241895,
  666307205, 773529912, 1294757372, 1396182291,
  1695183700, 1986661051, 2177026350, 2456956037,
  2730485921, 2820302411, 3259730800, 3345764771,
  3516065817, 3600352804, 4094571909, 275423344,
  430227734, 506948616, 659060556, 883997877,
  958139571, 1322822218, 1537002063, 1747873779,
  1955562222, 2024104815, 2227730452, 2361852424,
  2428436474, 2756734187, 3204031479, 3329325298]

def sha256InitH : List Nat :=
  [1779033703,
   3144134277,
   1013904242,
   2773480762,
   1359893119,
   2600822924,
   528734635,
   1541459225]

def natToBytesBE (numBytes n : Nat) : List Nat :=
  (List.range numBytes).map (fun i => (n >>> (8 * (numBytes - 1 - i))) % 256)

/-- SHA-256 padding: a 0x80 byte, zeros to 56 mod 64, the bit length on 8 bytes. -/
def sha256Pad (msg : List Nat) : List Nat :=
  let len := msg.length
  let zeros := (119 - len % 64) % 64
  msg ++ [128] ++ List.replicate zeros 0 ++ natToBytesBE 8 (len * 8)

def bytesToWordsBE : List Nat → List Nat
  | b0 :: b1 :: b2 :: b3 :: rest => (((b0 * 256 + b1) * 256 + b2) * 256 + b3) :: bytesToWordsBE rest
  | _ => []

def wordToBytesBE (w : Nat) : List Nat :=
  [(w >>> 24) % 256, (w >>> 16) % 256, (w >>> 8) % 256, w % 256]

/-- Split a word list into 16-word blocks (padded input is always a multiple
of 16 words, so the catch-all is never reached on it). -/
def words16 : List Nat → List (List Nat)
  | w0 :: w1 :: w2 :: w3 :: w4 :: w5 :: w6 :: w7 :: w8 :: w9 :: w10 :: w11 :: w12 :: w13 :: w14 :: w15 :: rest =>
    [w0, w1, w2, w3, w4, w5, w6, w7, w8, w9, w10, w11, w12, w13, w14, w15] :: words16 rest
  | _ => []

/-- The 64-word message schedule of a block. -/
def sha256Schedule (block : List Nat) : Array Nat :=
  (List.range 48).foldl
    (fun w _ =>
      let t := w.size
      w.push (w32 (smallSigma1 (w.getD (t - 2) 0) + w.getD (t - 7) 0
        + smallSigma0 (w.getD (t - 15) 0) + w.getD (t - 16) 0)))
    block.toArray

structure Sha256State where
  a : Nat
  b : Nat
  c : Nat
  d : Nat
  e : Nat
  f : Nat
  g : Nat
  hh : Nat
deriving Repr

def sha256Round (w : Array Nat) (st : Sha256State) (i : Nat) : Sha256State :=
  let t1 := w32 (st.hh + bigSigma1 st.e + shaCh st.e st.f st.g + sha256K.getD i 0 + w.getD i 0)
  let t2 := w32 (bigSigma0 st.a + shaMaj st.a st.b st.c)
  { a := w32 (t1 + t2), b := st.a, c := st.b, d := st.c
    e := w32 (st.d + t1), f := st.e, g := st.f, hh := st.g }

def sha256Compress (hs : List Nat) (block : List Nat) : List Nat :=
  let w := sha256Schedule block
  let st0 : Sha256State :=
    { a := hs.getD 0 0, b := hs.getD 1 0, c := hs.getD 2 0, d := hs.getD 3 0
      e := hs.getD 4 0, f := hs.getD 5 0, g := hs.getD 6 0, hh := hs.getD 7 0 }
  let st := (List.range 64).foldl (sha256Round w) st0
  [w32 (hs.getD 0 0 + st.a), w32 (hs.getD 1 0 + st.b), w32 (hs.getD 2 0 + st.c),
   w32 (hs.getD 3 0 + st.d), w32 (hs.getD 4 0 + st.e), w32 (hs.getD 5 0 + st.f),
   w32 (hs.getD 6 0 + st.g), w32 (hs.getD 7 0 + st.hh)]

/-- crypto/sha256: the digest of a byte string, as 32 bytes. -/
def sha256 (msg : List Nat) : List Nat :=
  let blocks := words16 (bytesToWordsBE (sha256Pad msg))
  let hfin := blocks.foldl sha256Compress sha256InitH
  (hfin.map wordToBytesBE).flatten

/-- crypto/hmac with SHA-256 (block size 64). -/
def hmacSha256 (key msg : List Nat) : List Nat :=
  let k0 := if 64 < key.length then sha256 key else key
  let k := k0 ++ List.replicate (64 - k0.length) 0
  sha256 ((k.map (fun b => b ^^^ 92)) ++ sha256 ((k.map (fun b => b ^^^ 54)) ++ msg))

def hexDigit (n : Nat) : String :=
  match n with
  | 0 => "0" | 1 => "1" | 2 => "2" | 3 => "3" | 4 => "4"
  | 5 => "5" | 6 => "6" | 7 => "7" | 8 => "8" | 9 => "9"
  | 10 => "a" | 11 => "b" | 12 => "c" | 13 => "d" | 14 => "e" | 15 => "f"
  | _ => ""

def hexByte (b : Nat) : String := hexDigit ((b / 16) % 16) ++ hexDigit (b % 16)

/-- encoding/hex EncodeToString. -/
def hexEncode (bs : List Nat) : String := String.join (bs.map hexByte)

/-- ClientTokenOptions (client_token.go). -/
structure ClientTokenOptions where
  Operation : String
  Pathname : String
  ExpiresAt : Int
deriving DecidableEq, Repr

/-- json.Marshal of ClientTokenOptions: Go emits the fields in declaration
order, honoring the omitempty tags on pathname and expiresAt; the strings used
in the theorems below need no JSON escaping. -/
def marshalClientTokenOptions (o : ClientTokenOptions) : String :=
  "\x7b\"operation\":\"" ++ o.Operation ++ "\""
    ++ (if o.Pathname = "" then "" else ",\"pathname\":\"" ++ o.Pathname ++ "\"")
    ++ (if o.ExpiresAt = 0 then "" else ",\"expiresAt\":" ++ toString o.ExpiresAt)
    ++ "\x7d"

/-- The bytes of an ASCII string (UTF-8 agrees with the code points there). -/
def strBytes (s : String) : List Nat := s.data.map Char.toNat

/-- The number of positions at which two equal-length byte strings differ. -/
def diffCount (xs ys : List Nat) : Nat :=
  (List.zipWith (fun a b => if a = b then 0 else 1) xs ys).sum

/-- GenerateClientToken (client_token.go lines 27-42).  time.Now is modelled by
the now argument (epoch seconds); a zero ExpiresAt defaults to now + 3600.
json.Marshal cannot fail on this struct, so the Go (string, error) pair is
collapsed to the string. -/
def GenerateClientToken (token : String) (options : ClientTokenOptions) (now : Int) : String :=
  let options :=
    if options.ExpiresAt = 0 then { options with ExpiresAt := now + 3600 } else options
  let payload := strBytes (marshalClientTokenOptions options)
  let signature := hexEncode (hmacSha256 (strBytes token) payload)
  hexEncode payload ++ "." ++ signature

/-! ## Derived definitions and concrete fixtures -/

/-- The zero value of PutBlobPutResult, used by the discarded-decode paths. -/
def zeroPutResult : PutBlobPutResult :=
  { URL := "", Pathname := "", ContentType := "", ContentDisposition := "" }

/-- The session identifiers a multipart upload runs with: the decoded create
response, or its zero value when the 200 create body fails to decode. -/
def Client.mpuSession (c : Client) (oracle : Oracle) (pathname : String)
    (options : PutCommandOptions) : CreateMultipartUploadResponse :=
  (oracle (c.createMpuRequest pathname options)).createBody.getD { UploadID := "", Key := "" }

/-- A response with status 200 and nothing else set, as a fixture template. -/
def emptyResponse : Response :=
  { statusCode := 200, etag := "", bodyBytes := [], errorBody := none, createBody := none
    putResultBody := none, headBody := none, listBody := none }

/-- A transport answering every request with the same response. -/
def constOracle (resp : Response) : Oracle := fun _ => resp

/-- A client with no token provider reading the given environment token
(NewClient with BLOB_READ_WRITE_TOKEN set to the argument). -/
def envClient (token : String) : Client :=
  { tokenProvider := none, envToken := token, baseURL := DefaultBaseURL
    apiVersion := BlobAPIVersion }

/-- A client (NewClientExternal) whose provider returns the operation string
itself as the token, exposing which operation name the client passed. -/
def opEchoClient : Client :=
  { tokenProvider := some (fun op _ => (op, none)), envToken := "", baseURL := DefaultBaseURL
    apiVersion := BlobAPIVersion }

/-- The zero value of PutCommandOptions. -/
def defaultPutOptions : PutCommandOptions :=
  { AddRandomSuffix := false, CacheControlMaxAge := 0, ContentType := "", Access := "" }

/-- A 200 response carrying a decodable multipart create body, a decodable put
result and an ETag, under which every multipart phase succeeds. -/
def mpuOkResponse : Response :=
  { emptyResponse with
    etag := "etag-1"
    createBody := some { UploadID := "upload-1", Key := "key-1" }
    putResultBody := some { URL := "https://blob/x", Pathname := "x", ContentType := "", ContentDisposition := "" } }

/-! ## Lemmas: headers -/

theorem getHeader_setHeader_same (hs : List (String × String)) (key value : String) :
    getHeader (setHeader hs key value) key = some value := by
  induction hs with
  | nil => simp [setHeader, getHeader]
  | cons p rest ih =>
    by_cases h : p.1 = key
    · simp [setHeader, getHeader, h]
    · simp [setHeader, getHeader, h, ih]

theorem getHeader_setHeader_ne (hs : List (String × String)) (key value key2 : String)
    (h : key ≠ key2) : getHeader (setHeader hs key value) key2 = getHeader hs key2 := by
  induction hs with
  | nil => simp [setHeader, getHeader, h]
  | cons p rest ih =>
    by_cases hp : p.1 = key
    · simp [setHeader, getHeader, hp, h]
    · simp only [setHeader, if_neg hp, getHeader]
      by_cases hp2 : p.1 = key2
      · simp [hp2]
      · simp [hp2, ih]

/-- The successful branch of addAuthorizationHeader only adds the bearer
header with the resolved token. -/
theorem addAuthorizationHeader_ok_fields (c : Client) (req r : Request) (op path : String)
    (h : c.addAuthorizationHeader req op path = .ok r) :
    r = { req with headers := setHeader req.headers "Authorization" ("Bearer " ++ c.resolveToken op path) } := by
  unfold Client.addAuthorizationHeader at h
  by_cases ht : c.resolveToken op path = ""
  · simp only [ht, if_pos] at h
    exact absurd h (by simp)
  · simp only [ht, if_neg, ite_false] at h
    exact (Except.ok.injEq _ _).mp h.symm

/-- With no resolvable token the discarded-error pattern leaves the request
untouched; with a token it attaches the bearer header. -/
theorem addAuthorizationHeaderIgnored_eq (c : Client) (req : Request) (op path : String) :
    c.addAuthorizationHeaderIgnored req op path =
      (if c.resolveToken op path = "" then req
       else { req with headers := setHeader req.headers "Authorization" ("Bearer " ++ c.resolveToken op path) }) := by
  unfold Client.addAuthorizationHeaderIgnored Client.addAuthorizationHeader
  by_cases ht : c.resolveToken op path = "" <;> simp [ht]

theorem addAuthorizationHeaderIgnored_fields (c : Client) (req : Request) (op path : String) :
    (c.addAuthorizationHeaderIgnored req op path).method = req.method
      ∧ (c.addAuthorizationHeaderIgnored req op path).url = req.url
      ∧ (c.addAuthorizationHeaderIgnored req op path).query = req.query
      ∧ (c.addAuthorizationHeaderIgnored req op path).body = req.body := by
  rw [addAuthorizationHeaderIgnored_eq]
  by_cases ht : c.resolveToken op path = "" <;> simp [ht]

theorem getHeader_addAuthorizationHeaderIgnored_ne (c : Client) (req : Request) (op path key : String)
    (h : key ≠ "Authorization") :
    getHeader (c.addAuthorizationHeaderIgnored req op path).headers key = getHeader req.headers key := by
  rw [addAuthorizationHeaderIgnored_eq]
  by_cases ht : c.resolveToken op path = ""
  · simp [ht]
  · simp [ht, getHeader_setHeader_ne _ _ _ _ (fun hx => h hx.symm)]

/-- setPutHeaders never touches a header outside its four X- keys. -/
theorem getHeader_setPutHeaders (c : Client) (req : Request) (options : PutCommandOptions)
    (key : String) (h1 : key ≠ "X-Add-Random-Suffix") (h2 : key ≠ "X-Content-Type")
    (h3 : key ≠ "X-Cache-Control-Max-Age") (h4 : key ≠ "X-Access") :
    getHeader (c.setPutHeaders req options).headers key = getHeader req.headers key := by
  unfold Client.setPutHeaders
  by_cases ha : options.AddRandomSuffix <;>
  by_cases hb : options.ContentType ≠ "" <;>
  by_cases hc : options.CacheControlMaxAge > 0 <;>
  simp [ha, hb, hc, getHeader_setHeader_ne, h1.symm, h2.symm, h3.symm, h4.symm]

/-- The upload request of part p carries the upload action, the session
correlation headers and the decimal part number. -/
theorem uploadPartRequest_headers (c : Client) (pathname uploadID key : String)
    (p : Nat) (chunk : List Nat) :
    getHeader (c.uploadPartRequest pathname uploadID key p chunk).headers "X-MPU-Action" = some "upload"
      ∧ getHeader (c.uploadPartRequest pathname uploadID key p chunk).headers "X-MPU-Upload-Id" = some uploadID
      ∧ getHeader (c.uploadPartRequest pathname uploadID key p chunk).headers "X-MPU-Key" = some key
      ∧ getHeader (c.uploadPartRequest pathname uploadID key p chunk).headers "X-MPU-Part-Number" = some (toString p) := by
  unfold Client.uploadPartRequest
  refine ⟨?_, ?_, ?_, ?_⟩ <;>
    simp [getHeader_setHeader_same, getHeader_setHeader_ne]

theorem uploadPartRequest_action (c : Client) (pathname uploadID key : String)
    (p : Nat) (chunk : List Nat) :
    getHeader (c.uploadPartRequest pathname uploadID key p chunk).headers "X-MPU-Action" = some "upload" :=
  (uploadPartRequest_headers c pathname uploadID key p chunk).1

theorem uploadPartRequest_body (c : Client) (pathname uploadID key : String)
    (p : Nat) (chunk : List Nat) :
    (c.uploadPartRequest pathname uploadID key p chunk).body = .bytes chunk := by
  unfold Client.uploadPartRequest
  simp [(addAuthorizationHeaderIgnored_fields c _ "put" pathname).2.2.2, Client.addAPIVersionHeader]

theorem createMpuRequest_action (c : Client) (pathname : String) (options : PutCommandOptions) :
    getHeader (c.createMpuRequest pathname options).headers "X-MPU-Action" = some "create" := by
  unfold Client.createMpuRequest
  simp [getHeader_setHeader_same]

theorem completeMpuRequest_action (c : Client) (pathname uploadID key : String) (parts : List Part) :
    getHeader (c.completeMpuRequest pathname uploadID key parts).headers "X-MPU-Action" = some "complete" := by
  unfold Client.completeMpuRequest
  simp [getHeader_setHeader_same]

/-! ## Lemmas: the multipart loop and putMultipart -/


theorem mpuChunks_nil : mpuChunks [] = [] := by
  rw [mpuChunks.eq_def]
  simp

theorem mpuChunks_cons_big (l : List Nat) (h : MultipartThreshold ≤ l.length) :
    mpuChunks l = l.take MultipartThreshold :: mpuChunks (l.drop MultipartThreshold) := by
  rw [mpuChunks.eq_def]
  have hne : l ≠ [] := by
    intro hl
    rw [hl] at h
    exact absurd h (by decide)
  rw [dif_neg hne, if_pos h]

theorem mpuChunks_small (l : List Nat) (hne : l ≠ []) (h : ¬ MultipartThreshold ≤ l.length) :
    mpuChunks l = [l] := by
  rw [mpuChunks.eq_def]
  rw [dif_neg hne, if_neg h]

theorem mpuUploadLoop_ok (c : Client) (oracle : Oracle) (pathname uploadID key : String)
    (h200 : ∀ p chunk, (oracle (c.uploadPartRequest pathname uploadID key p chunk)).statusCode = 200) :
    ∀ n (s : ByteStream), s.data.length ≤ n → s.readErr = none → ∀ p parts,
      c.mpuUploadLoop oracle pathname uploadID key s p parts =
        (.ok (parts ++ c.partsFrom oracle pathname uploadID key p (mpuChunks s.data)),
         c.uploadReqsFrom pathname uploadID key p (mpuChunks s.data)) := by
  intro n
  induction n with
  | zero =>
    intro s hlen hclean p parts
    have hdata : s.data = [] := List.length_eq_zero.mp (Nat.le_zero.mp hlen)
    rw [Client.mpuUploadLoop.eq_def]
    rw [dif_neg (by rw [hdata]; decide)]
    simp only [hdata, List.length_nil, gt_iff_lt, Nat.lt_irrefl, if_false, hclean]
    simp [mpuChunks_nil, Client.partsFrom, Client.uploadReqsFrom]
  | succ n ih =>
    intro s hlen hclean p parts
    rw [Client.mpuUploadLoop.eq_def]
    by_cases hth : MultipartThreshold ≤ s.data.length
    · rw [dif_pos hth]
      simp only [h200, ne_eq, not_true_eq_false, if_false, ite_false]
      rw [ih { data := s.data.drop MultipartThreshold, readErr := s.readErr } (by
            simp only [List.length_drop]
            have : 0 < MultipartThreshold := by decide
            omega) hclean]
      rw [mpuChunks_cons_big s.data hth]
      simp [Client.partsFrom, Client.uploadReqsFrom]
    · rw [dif_neg hth]
      by_cases hne : s.data = []
      · simp only [hne, List.length_nil, gt_iff_lt, Nat.lt_irrefl, if_false, hclean]
        simp [mpuChunks_nil, Client.partsFrom, Client.uploadReqsFrom]
      · have hpos : 0 < s.data.length := List.length_pos.mpr hne
        simp only [gt_iff_lt, hpos, if_true, h200, ne_eq, not_true_eq_false, ite_false, hclean]
        rw [mpuChunks_small s.data hne hth]
        simp [Client.partsFrom, Client.uploadReqsFrom]



theorem mpuUploadLoop_readErr (c : Client) (oracle : Oracle) (pathname uploadID key m : String)
    (h200 : ∀ p chunk, (oracle (c.uploadPartRequest pathname uploadID key p chunk)).statusCode = 200) :
    ∀ n (s : ByteStream), s.data.length ≤ n → s.readErr = some m → ∀ p parts,
      c.mpuUploadLoop oracle pathname uploadID key s p parts =
        (.error (.readError m), c.uploadReqsFrom pathname uploadID key p (mpuChunks s.data)) := by
  intro n
  induction n with
  | zero =>
    intro s hlen herr p parts
    have hdata : s.data = [] := List.length_eq_zero.mp (Nat.le_zero.mp hlen)
    rw [Client.mpuUploadLoop.eq_def]
    rw [dif_neg (by rw [hdata]; decide)]
    simp only [hdata, List.length_nil, gt_iff_lt, Nat.lt_irrefl, if_false, herr]
    simp [mpuChunks_nil, Client.uploadReqsFrom]
  | succ n ih =>
    intro s hlen herr p parts
    rw [Client.mpuUploadLoop.eq_def]
    by_cases hth : MultipartThreshold ≤ s.data.length
    · rw [dif_pos hth]
      simp only [h200, ne_eq, not_true_eq_false, if_false, ite_false]
      rw [ih { data := s.data.drop MultipartThreshold, readErr := s.readErr } (by
            simp only [List.length_drop]
            have : 0 < MultipartThreshold := by decide
            omega) herr]
      rw [mpuChunks_cons_big s.data hth]
      simp [Client.uploadReqsFrom]
    · rw [dif_neg hth]
      by_cases hne : s.data = []
      · simp only [hne, List.length_nil, gt_iff_lt, Nat.lt_irrefl, if_false, herr]
        simp [mpuChunks_nil, Client.uploadReqsFrom]
      · have hpos : 0 < s.data.length := List.length_pos.mpr hne
        simp only [gt_iff_lt, hpos, if_true, h200, ne_eq, not_true_eq_false, ite_false, herr]
        rw [mpuChunks_small s.data hne hth]
        simp [Client.uploadReqsFrom]

theorem mpuUploadLoop_firstFail (c : Client) (oracle : Oracle) (pathname uploadID key : String)
    (s : ByteStream) (p : Nat) (parts : List Part) (hne : s.data ≠ [])
    (hfail : (oracle (c.uploadPartRequest pathname uploadID key p (s.data.take MultipartThreshold))).statusCode ≠ 200) :
    c.mpuUploadLoop oracle pathname uploadID key s p parts =
      (.error (handleError (oracle (c.uploadPartRequest pathname uploadID key p (s.data.take MultipartThreshold)))),
       [c.uploadPartRequest pathname uploadID key p (s.data.take MultipartThreshold)]) := by
  rw [Client.mpuUploadLoop.eq_def]
  by_cases hth : MultipartThreshold ≤ s.data.length
  · rw [dif_pos hth]
    simp only [hfail, ne_eq, not_false_eq_true, if_true, ite_true]
  · rw [dif_neg hth]
    have htake : s.data.take MultipartThreshold = s.data :=
      List.take_of_length_le (Nat.le_of_lt (Nat.lt_of_not_le hth))
    have hpos : 0 < s.data.length := List.length_pos.mpr hne
    rw [htake] at hfail
    simp only [gt_iff_lt, hpos, if_true, hfail, ne_eq, not_false_eq_true, ite_true, htake]

theorem mpuUploadLoop_trace_shape (c : Client) (oracle : Oracle) (pathname uploadID key : String) :
    ∀ n (s : ByteStream), s.data.length ≤ n → ∀ p parts r,
      r ∈ (c.mpuUploadLoop oracle pathname uploadID key s p parts).2 →
      ∃ q chunk, r = c.uploadPartRequest pathname uploadID key q chunk := by
  intro n
  induction n with
  | zero =>
    intro s hlen p parts r hr
    have hdata : s.data = [] := List.length_eq_zero.mp (Nat.le_zero.mp hlen)
    rw [Client.mpuUploadLoop.eq_def] at hr
    rw [dif_neg (by rw [hdata]; decide)] at hr
    simp only [hdata, List.length_nil, gt_iff_lt, Nat.lt_irrefl, if_false] at hr
    cases herr : s.readErr <;> simp [herr] at hr
  | succ n ih =>
    intro s hlen p parts r hr
    rw [Client.mpuUploadLoop.eq_def] at hr
    by_cases hth : MultipartThreshold ≤ s.data.length
    · rw [dif_pos hth] at hr
      by_cases hst : (oracle (c.uploadPartRequest pathname uploadID key p (s.data.take MultipartThreshold))).statusCode = 200
      · simp only [hst, ne_eq, not_true_eq_false, ite_false, List.mem_cons] at hr
        rcases hr with hr | hr
        · exact ⟨p, s.data.take MultipartThreshold, hr⟩
        · exact ih { data := s.data.drop MultipartThreshold, readErr := s.readErr } (by
            simp only [List.length_drop]
            have : 0 < MultipartThreshold := by decide
            omega) _ _ r hr
      · simp only [ne_eq, hst, not_false_eq_true, ite_true, List.mem_singleton] at hr
        exact ⟨p, s.data.take MultipartThreshold, hr⟩
    · rw [dif_neg hth] at hr
      by_cases hne : s.data.length > 0
      · simp only [hne, if_true] at hr
        by_cases hst : (oracle (c.uploadPartRequest pathname uploadID key p s.data)).statusCode = 200
        · simp only [hst, ne_eq, not_true_eq_false, ite_false] at hr
          cases herr : s.readErr
          · simp only [herr, List.mem_singleton] at hr
            exact ⟨p, s.data, hr⟩
          · simp only [herr, List.mem_singleton] at hr
            exact ⟨p, s.data, hr⟩
        · simp only [ne_eq, hst, not_false_eq_true, ite_true, List.mem_singleton] at hr
          exact ⟨p, s.data, hr⟩
      · simp only [hne, if_false] at hr
        cases herr : s.readErr <;> simp [herr] at hr



theorem mpuSession_fold (c : Client) (oracle : Oracle) (pathname : String)
    (options : PutCommandOptions) :
    (oracle (c.createMpuRequest pathname options)).createBody.getD { UploadID := "", Key := "" }
      = c.mpuSession oracle pathname options := rfl

theorem putMultipart_createFail (c : Client) (oracle : Oracle) (pathname : String)
    (body : ByteStream) (options : PutCommandOptions)
    (hfail : (oracle (c.createMpuRequest pathname options)).statusCode ≠ 200) :
    c.putMultipart oracle pathname body options =
      (.error (handleError (oracle (c.createMpuRequest pathname options))),
       [c.createMpuRequest pathname options]) := by
  unfold Client.putMultipart
  simp only [hfail, ne_eq, not_false_eq_true, ite_true]

theorem putMultipart_completeOk (c : Client) (oracle : Oracle) (pathname : String) (body : ByteStream)
    (options : PutCommandOptions)
    (hcreate : (oracle (c.createMpuRequest pathname options)).statusCode = 200)
    (h200 : ∀ p chunk, (oracle (c.uploadPartRequest pathname (c.mpuSession oracle pathname options).UploadID (c.mpuSession oracle pathname options).Key p chunk)).statusCode = 200)
    (hclean : body.readErr = none)
    (hcomp : (oracle (c.completeMpuRequest pathname (c.mpuSession oracle pathname options).UploadID (c.mpuSession oracle pathname options).Key (c.partsFrom oracle pathname (c.mpuSession oracle pathname options).UploadID (c.mpuSession oracle pathname options).Key 1 (mpuChunks body.data)))).statusCode = 200) :
    c.putMultipart oracle pathname body options =
      (.ok ((oracle (c.completeMpuRequest pathname (c.mpuSession oracle pathname options).UploadID (c.mpuSession oracle pathname options).Key (c.partsFrom oracle pathname (c.mpuSession oracle pathname options).UploadID (c.mpuSession oracle pathname options).Key 1 (mpuChunks body.data)))).putResultBody.getD zeroPutResult),
       c.createMpuRequest pathname options
         :: c.uploadReqsFrom pathname (c.mpuSession oracle pathname options).UploadID (c.mpuSession oracle pathname options).Key 1 (mpuChunks body.data)
         ++ [c.completeMpuRequest pathname (c.mpuSession oracle pathname options).UploadID (c.mpuSession oracle pathname options).Key (c.partsFrom oracle pathname (c.mpuSession oracle pathname options).UploadID (c.mpuSession oracle pathname options).Key 1 (mpuChunks body.data))]) := by
  unfold Client.putMultipart
  simp only [hcreate, ne_eq, not_true_eq_false, ite_false, if_false]
  rw [mpuSession_fold]
  rw [mpuUploadLoop_ok c oracle pathname (c.mpuSession oracle pathname options).UploadID (c.mpuSession oracle pathname options).Key h200 body.data.length body (Nat.le_refl _) hclean]
  simp only [List.nil_append, hcomp, not_true_eq_false, ite_false, zeroPutResult]

theorem putMultipart_completeFail (c : Client) (oracle : Oracle) (pathname : String) (body : ByteStream)
    (options : PutCommandOptions)
    (hcreate : (oracle (c.createMpuRequest pathname options)).statusCode = 200)
    (h200 : ∀ p chunk, (oracle (c.uploadPartRequest pathname (c.mpuSession oracle pathname options).UploadID (c.mpuSession oracle pathname options).Key p chunk)).statusCode = 200)
    (hclean : body.readErr = none)
    (hcomp : (oracle (c.completeMpuRequest pathname (c.mpuSession oracle pathname options).UploadID (c.mpuSession oracle pathname options).Key (c.partsFrom oracle pathname (c.mpuSession oracle pathname options).UploadID (c.mpuSession oracle pathname options).Key 1 (mpuChunks body.data)))).statusCode ≠ 200) :
    c.putMultipart oracle pathname body options =
      (.error (handleError (oracle (c.completeMpuRequest pathname (c.mpuSession oracle pathname options).UploadID (c.mpuSession oracle pathname options).Key (c.partsFrom oracle pathname (c.mpuSession oracle pathname options).UploadID (c.mpuSession oracle pathname options).Key 1 (mpuChunks body.data))))),
       c.createMpuRequest pathname options
         :: c.uploadReqsFrom pathname (c.mpuSession oracle pathname options).UploadID (c.mpuSession oracle pathname options).Key 1 (mpuChunks body.data)
         ++ [c.completeMpuRequest pathname (c.mpuSession oracle pathname options).UploadID (c.mpuSession oracle pathname options).Key (c.partsFrom oracle pathname (c.mpuSession oracle pathname options).UploadID (c.mpuSession oracle pathname options).Key 1 (mpuChunks body.data))]) := by
  unfold Client.putMultipart
  simp only [hcreate, ne_eq, not_true_eq_false, ite_false, if_false]
  rw [mpuSession_fold]
  rw [mpuUploadLoop_ok c oracle pathname (c.mpuSession oracle pathname options).UploadID (c.mpuSession oracle pathname options).Key h200 body.data.length body (Nat.le_refl _) hclean]
  simp only [List.nil_append, hcomp, ne_eq, not_false_eq_true, ite_true]

theorem putMultipart_readErr (c : Client) (oracle : Oracle) (pathname m : String) (body : ByteStream)
    (options : PutCommandOptions)
    (hcreate : (oracle (c.createMpuRequest pathname options)).statusCode = 200)
    (h200 : ∀ p chunk, (oracle (c.uploadPartRequest pathname (c.mpuSession oracle pathname options).UploadID (c.mpuSession oracle pathname options).Key p chunk)).statusCode = 200)
    (herr : body.readErr = some m) :
    c.putMultipart oracle pathname body options =
      (.error (.readError m),
       c.createMpuRequest pathname options
         :: c.uploadReqsFrom pathname (c.mpuSession oracle pathname options).UploadID (c.mpuSession oracle pathname options).Key 1 (mpuChunks body.data)) := by
  unfold Client.putMultipart
  simp only [hcreate, ne_eq, not_true_eq_false, ite_false, if_false]
  rw [mpuSession_fold]
  rw [mpuUploadLoop_readErr c oracle pathname (c.mpuSession oracle pathname options).UploadID (c.mpuSession oracle pathname options).Key m h200 body.data.length body (Nat.le_refl _) herr]

theorem putMultipart_firstPartFail (c : Client) (oracle : Oracle) (pathname : String)
    (body : ByteStream) (options : PutCommandOptions)
    (hcreate : (oracle (c.createMpuRequest pathname options)).statusCode = 200)
    (hne : body.data ≠ [])
    (hfail : (oracle (c.uploadPartRequest pathname (c.mpuSession oracle pathname options).UploadID (c.mpuSession oracle pathname options).Key 1 (body.data.take MultipartThreshold))).statusCode ≠ 200) :
    c.putMultipart oracle pathname body options =
      (.error (handleError (oracle (c.uploadPartRequest pathname (c.mpuSession oracle pathname options).UploadID (c.mpuSession oracle pathname options).Key 1 (body.data.take MultipartThreshold)))),
       [c.createMpuRequest pathname options,
        c.uploadPartRequest pathname (c.mpuSession oracle pathname options).UploadID (c.mpuSession oracle pathname options).Key 1 (body.data.take MultipartThreshold)]) := by
  unfold Client.putMultipart
  simp only [hcreate, ne_eq, not_true_eq_false, ite_false, if_false]
  rw [mpuSession_fold]
  rw [mpuUploadLoop_firstFail c oracle pathname (c.mpuSession oracle pathname options).UploadID (c.mpuSession oracle pathname options).Key body 1 [] hne hfail]

theorem putMultipart_trace_shape (c : Client) (oracle : Oracle) (pathname : String)
    (body : ByteStream) (options : PutCommandOptions) (r : Request)
    (hr : r ∈ (c.putMultipart oracle pathname body options).2) :
    r = c.createMpuRequest pathname options
      ∨ (∃ q chunk, r = c.uploadPartRequest pathname (c.mpuSession oracle pathname options).UploadID (c.mpuSession oracle pathname options).Key q chunk)
      ∨ (∃ parts, r = c.completeMpuRequest pathname (c.mpuSession oracle pathname options).UploadID (c.mpuSession oracle pathname options).Key parts) := by
  unfold Client.putMultipart at hr
  by_cases hc : (oracle (c.createMpuRequest pathname options)).statusCode = 200
  · simp only [hc, ne_eq, not_true_eq_false, ite_false, if_false] at hr
    rw [mpuSession_fold] at hr
    rcases hloop : c.mpuUploadLoop oracle pathname (c.mpuSession oracle pathname options).UploadID (c.mpuSession oracle pathname options).Key body 1 [] with ⟨res, trace⟩
    rcases res with e | parts
    · simp only [hloop, List.mem_cons] at hr
      rcases hr with hr | hr
      · exact Or.inl hr
      · refine Or.inr (Or.inl ?_)
        have := mpuUploadLoop_trace_shape c oracle pathname (c.mpuSession oracle pathname options).UploadID (c.mpuSession oracle pathname options).Key body.data.length body (Nat.le_refl _) 1 [] r
        rw [hloop] at this
        exact this hr
    · simp only [hloop, apply_ite Prod.snd, ite_self, List.mem_cons, List.mem_append, List.mem_singleton] at hr
      have h1 := mpuUploadLoop_trace_shape c oracle pathname (c.mpuSession oracle pathname options).UploadID (c.mpuSession oracle pathname options).Key body.data.length body (Nat.le_refl _) 1 [] r
      rw [hloop] at h1
      rcases hr with (hr | hr) | hr | hr
      · exact Or.inl hr
      · exact Or.inr (Or.inl (h1 hr))
      · exact Or.inr (Or.inr ⟨parts, hr⟩)
      · exact absurd hr (List.not_mem_nil r)
  · simp only [ne_eq, hc, not_false_eq_true, ite_true, List.mem_singleton] at hr
    exact Or.inl hr




theorem mpuChunks_props : ∀ n (l : List Nat), l.length ≤ n →
    (∀ ch ∈ mpuChunks l, ch ≠ [] ∧ ch.length ≤ MultipartThreshold)
      ∧ (mpuChunks l).flatten = l := by
  intro n
  induction n with
  | zero =>
    intro l hlen
    have hdata : l = [] := List.length_eq_zero.mp (Nat.le_zero.mp hlen)
    subst hdata
    simp [mpuChunks_nil]
  | succ n ih =>
    intro l hlen
    by_cases hne : l = []
    · subst hne
      simp [mpuChunks_nil]
    · by_cases hth : MultipartThreshold ≤ l.length
      · rw [mpuChunks_cons_big l hth]
        have hrec := ih (l.drop MultipartThreshold) (by
          simp only [List.length_drop]
          have : 0 < MultipartThreshold := by decide
          omega)
        refine ⟨?_, ?_⟩
        · intro ch hch
          rcases List.mem_cons.mp hch with hch | hch
          · subst hch
            constructor
            · have : (l.take MultipartThreshold).length = MultipartThreshold := by
                rw [List.length_take]
                omega
              intro hnil
              rw [hnil] at this
              simp at this
              exact absurd this.symm (by decide)
            · rw [List.length_take]
              omega
          · exact hrec.1 ch hch
        · simp only [List.flatten_cons, hrec.2]
          exact List.take_append_drop MultipartThreshold l
      · rw [mpuChunks_small l hne hth]
        refine ⟨?_, ?_⟩
        · intro ch hch
          rcases List.mem_singleton.mp hch with rfl
          exact ⟨hne, Nat.le_of_lt (Nat.lt_of_not_le hth)⟩
        · simp

theorem mpuChunks_ne_nil (l : List Nat) (hne : l ≠ []) : mpuChunks l ≠ [] := by
  by_cases hth : MultipartThreshold ≤ l.length
  · rw [mpuChunks_cons_big l hth]
    exact List.cons_ne_nil _ _
  · rw [mpuChunks_small l hne hth]
    exact List.cons_ne_nil _ _

theorem partsFrom_map_partNumber (c : Client) (oracle : Oracle) (pathname uploadID key : String) :
    ∀ (chunks : List (List Nat)) (p : Nat),
      (c.partsFrom oracle pathname uploadID key p chunks).map Part.PartNumber
        = List.range' p chunks.length := by
  intro chunks
  induction chunks with
  | nil => intro p; simp [Client.partsFrom, List.range']
  | cons ch rest ih =>
    intro p
    simp only [Client.partsFrom, List.map_cons, List.length_cons, List.range'_succ, ih]

theorem uploadReqsFrom_length (c : Client) (pathname uploadID key : String) :
    ∀ (chunks : List (List Nat)) (p : Nat),
      (c.uploadReqsFrom pathname uploadID key p chunks).length = chunks.length := by
  intro chunks
  induction chunks with
  | nil => intro p; simp [Client.uploadReqsFrom]
  | cons ch rest ih =>
    intro p
    simp only [Client.uploadReqsFrom, List.length_cons, ih]

theorem uploadReqsFrom_map_partNumberHeader (c : Client) (pathname uploadID key : String) :
    ∀ (chunks : List (List Nat)) (p : Nat),
      (c.uploadReqsFrom pathname uploadID key p chunks).map
          (fun r => getHeader r.headers "X-MPU-Part-Number")
        = (List.range' p chunks.length).map (fun k => some (toString k)) := by
  intro chunks
  induction chunks with
  | nil => intro p; simp [Client.uploadReqsFrom, List.range']
  | cons ch rest ih =>
    intro p
    simp only [Client.uploadReqsFrom, List.map_cons, List.length_cons, List.range'_succ, ih,
      (uploadPartRequest_headers c pathname uploadID key p ch).2.2.2]

theorem uploadReqsFrom_map_body (c : Client) (pathname uploadID key : String) :
    ∀ (chunks : List (List Nat)) (p : Nat),
      (c.uploadReqsFrom pathname uploadID key p chunks).map Request.body
        = chunks.map RequestBody.bytes := by
  intro chunks
  induction chunks with
  | nil => intro p; simp [Client.uploadReqsFrom]
  | cons ch rest ih =>
    intro p
    simp only [Client.uploadReqsFrom, List.map_cons, ih, uploadPartRequest_body]

/-! ## Lemmas: single-shot operations -/


/-- Head always issues exactly its one request, whatever the response. -/
theorem head_trace (c : Client) (oracle : Oracle) (pathname : String) :
    (c.head oracle pathname).2 = [c.headRequest pathname] := by
  unfold Client.head
  by_cases h404 : (oracle (c.headRequest pathname)).statusCode = 404
  · simp [h404]
  · by_cases h200 : (oracle (c.headRequest pathname)).statusCode = 200
    · cases hb : (oracle (c.headRequest pathname)).headBody <;> simp [h404, h200, hb]
    · simp [h404, h200]

/-- With no resolvable token the request Head sends has no Authorization
header (its only header is the API version). -/
theorem headRequest_noAuth (c : Client) (pathname : String)
    (htok : c.resolveToken "put" pathname = "") :
    getHeader (c.headRequest pathname).headers "Authorization" = none := by
  unfold Client.headRequest
  rw [addAuthorizationHeaderIgnored_eq, if_pos htok]
  simp [Client.addAPIVersionHeader, setHeader, getHeader]

theorem deleteHttpRequest_noAuth (c : Client) (urls : List String)
    (htok : c.resolveToken "delete" (urls.headD "") = "") :
    getHeader (c.deleteHttpRequest urls).headers "Authorization" = none := by
  unfold Client.deleteHttpRequest
  rw [addAuthorizationHeaderIgnored_eq, if_pos htok]
  simp [Client.addAPIVersionHeader, setHeader, getHeader]

theorem copyRequest_noAuth (c : Client) (fromURL toPath : String) (options : PutCommandOptions)
    (htok : c.resolveToken "put" toPath = "") :
    getHeader (c.copyRequest fromURL toPath options).headers "Authorization" = none := by
  unfold Client.copyRequest
  rw [getHeader_setPutHeaders c _ options "Authorization" (by decide) (by decide) (by decide) (by decide)]
  rw [addAuthorizationHeaderIgnored_eq, if_pos htok]
  simp [Client.addAPIVersionHeader, setHeader, getHeader]

theorem downloadRequest_noAuth (c : Client) (urlPath : String) (options : DownloadCommandOptions)
    (htok : c.resolveToken "download" urlPath = "") :
    getHeader (c.downloadRequest urlPath options).headers "Authorization" = none := by
  unfold Client.downloadRequest
  cases hbr : options.ByteRange with
  | none =>
    show getHeader (c.addAuthorizationHeaderIgnored (c.addAPIVersionHeader { method := .get, url := urlPath, query := [], headers := [], body := .empty }) "download" urlPath).headers "Authorization" = none
    rw [addAuthorizationHeaderIgnored_eq, if_pos htok]
    simp [Client.addAPIVersionHeader, setHeader, getHeader]
  | some r =>
    show getHeader (setHeader (c.addAuthorizationHeaderIgnored (c.addAPIVersionHeader { method := .get, url := urlPath, query := [], headers := [], body := .empty }) "download" urlPath).headers "range" ("bytes=" ++ toString r.Start ++ "-" ++ toString r.RangeEnd)) "Authorization" = none
    rw [getHeader_setHeader_ne _ _ _ _ (by decide)]
    rw [addAuthorizationHeaderIgnored_eq, if_pos htok]
    simp [Client.addAPIVersionHeader, setHeader, getHeader]

theorem createMpuRequest_noAuth (c : Client) (pathname : String) (options : PutCommandOptions)
    (htok : c.resolveToken "put" pathname = "") :
    getHeader (c.createMpuRequest pathname options).headers "Authorization" = none := by
  unfold Client.createMpuRequest
  rw [getHeader_setHeader_ne _ _ _ _ (by decide)]
  rw [getHeader_setPutHeaders c _ options "Authorization" (by decide) (by decide) (by decide) (by decide)]
  rw [addAuthorizationHeaderIgnored_eq, if_pos htok]
  simp [Client.addAPIVersionHeader, setHeader, getHeader]

/-- Whatever happens, the multipart trace starts with the create request. -/
theorem putMultipart_trace_head (c : Client) (oracle : Oracle) (pathname : String)
    (body : ByteStream) (options : PutCommandOptions) :
    (c.putMultipart oracle pathname body options).2.head? = some (c.createMpuRequest pathname options) := by
  unfold Client.putMultipart
  by_cases hc : (oracle (c.createMpuRequest pathname options)).statusCode = 200
  · simp only [hc, ne_eq, not_true_eq_false, ite_false, if_false]
    rcases hloop : c.mpuUploadLoop oracle pathname ((oracle (c.createMpuRequest pathname options)).createBody.getD { UploadID := "", Key := "" }).UploadID ((oracle (c.createMpuRequest pathname options)).createBody.getD { UploadID := "", Key := "" }).Key body 1 [] with ⟨res, trace⟩
    rcases res with e | parts
    · simp [hloop]
    · simp only [hloop, apply_ite Prod.snd, ite_self]
      simp
  · simp [hc]

/-! ## Claims -/


/-- Claim C4, amended.  The error mapper sends every status at or above 500 to
the unknown error built from the status code and status text, for any body
(the body is never consulted); below 500 it decodes the error envelope and
maps the five recognized codes to their typed errors, an unrecognized code to
the unknown error carrying the status and message; but a body on which the
decode fails makes handleError return the raw json decode error, which carries
no taxonomy code, instead of the unknown error the claim states. -/
theorem claim_C4 (resp : Response) :
    (500 ≤ resp.statusCode →
      handleError resp = .api (NewUnknownError resp.statusCode (statusText resp.statusCode)))
  ∧ (resp.statusCode < 500 →
      ∀ env, resp.errorBody = some env →
        (env.error.code = "store_suspended" → handleError resp = .api ErrStoreSuspended)
      ∧ (env.error.code = "forbidden" → handleError resp = .api ErrForbidden)
      ∧ (env.error.code = "not_found" → handleError resp = .api ErrBlobNotFound)
      ∧ (env.error.code = "store_not_found" → handleError resp = .api ErrStoreNotFound)
      ∧ (env.error.code = "bad_request" → handleError resp = .api (ErrBadRequest env.error.message))
      ∧ (env.error.code ∉ ["store_suspended", "forbidden", "not_found", "store_not_found", "bad_request"] →
          handleError resp = .api (NewUnknownError resp.statusCode env.error.message)))
  ∧ (resp.statusCode < 500 → resp.errorBody = none →
      handleError resp = .jsonDecodeError ∧ (handleError resp).errCode = none) := by
  refine ⟨?_, ?_, ?_⟩
  · intro h5
    unfold handleError
    rw [if_pos h5]
  · intro h5 env henv
    unfold handleError
    rw [if_neg (by omega)]
    simp only [henv]
    refine ⟨?_, ?_, ?_, ?_, ?_, ?_⟩ <;> intro hc
    · rw [hc]; rfl
    · rw [hc]; rfl
    · rw [hc]; rfl
    · rw [hc]; rfl
    · rw [hc]; rfl
    · split
      · rename_i heq; rw [heq] at hc; simp at hc
      · rename_i heq; rw [heq] at hc; simp at hc
      · rename_i heq; rw [heq] at hc; simp at hc
      · rename_i heq; rw [heq] at hc; simp at hc
      · rename_i heq; rw [heq] at hc; simp at hc
      · rfl
  · intro h5 hnone
    unfold handleError
    rw [if_neg (by omega), hnone]
    exact ⟨rfl, rfl⟩

/-- Claim C4 counterexample: a 400 response whose body fails to decode is
mapped to the raw json decode error, not to the unknown error (nor to any
taxonomy error at all: its error code is none). -/
theorem claim_C4_counterexample :
    handleError { emptyResponse with statusCode := 400 } = .jsonDecodeError
  ∧ (handleError { emptyResponse with statusCode := 400 }).errCode = none
  ∧ handleError { emptyResponse with statusCode := 400 }
      ≠ .api (NewUnknownError 400 (statusText 400)) := by
  refine ⟨rfl, rfl, by decide⟩

/-- Claim C6: Delete with zero URLs issues no request and returns success;
with one or more URLs it issues exactly one POST whose body is the marshalled
url list, and a 200 status alone makes it succeed, no body being decoded. -/
theorem claim_C6 (c : Client) (oracle : Oracle) :
    c.delete oracle [] = (.ok (), [])
  ∧ ∀ urls : List String, urls ≠ [] →
      (c.delete oracle urls).2 = [c.deleteHttpRequest urls]
      ∧ (c.deleteHttpRequest urls).method = .post
      ∧ (c.deleteHttpRequest urls).body = .deleteJson urls
      ∧ ((oracle (c.deleteHttpRequest urls)).statusCode = 200 →
          c.delete oracle urls = (.ok (), [c.deleteHttpRequest urls])) := by
  constructor
  · unfold Client.delete
    simp
  · intro urls hne
    have hlen : ¬ urls.length = 0 := fun h => hne (List.length_eq_zero.mp h)
    refine ⟨?_, ?_, ?_, ?_⟩
    · unfold Client.delete
      rw [if_neg hlen]
      by_cases hs : (oracle (c.deleteHttpRequest urls)).statusCode = 200 <;> simp [hs]
    · unfold Client.deleteHttpRequest
      exact (addAuthorizationHeaderIgnored_fields c _ "delete" (urls.headD "")).1
    · unfold Client.deleteHttpRequest
      exact (addAuthorizationHeaderIgnored_fields c _ "delete" (urls.headD "")).2.2.2
    · intro h200
      unfold Client.delete
      rw [if_neg hlen]
      simp [h200]

/-- Claim C8: a 404 response makes Head return the blob-not-found error
without consulting the error mapper (the response body is arbitrary here, so a
body the mapper would read differently is ignored); every other non-200
status goes through handleError. -/
theorem claim_C8 (c : Client) (oracle : Oracle) (pathname : String) :
    ((oracle (c.headRequest pathname)).statusCode = 404 →
      c.head oracle pathname = (.error (.api ErrBlobNotFound), [c.headRequest pathname]))
  ∧ ((oracle (c.headRequest pathname)).statusCode ≠ 404 →
     (oracle (c.headRequest pathname)).statusCode ≠ 200 →
      c.head oracle pathname
        = (.error (handleError (oracle (c.headRequest pathname))), [c.headRequest pathname])) := by
  constructor
  · intro h404
    unfold Client.head
    simp [h404]
  · intro h404 h200
    unfold Client.head
    simp [h404, h200]



/-- Claim C9: Head resolves its token by calling the provider with the
operation string "put" (not "head") and the pathname; the Authorization header
it sends is therefore the one built from the provider's answer to ("put",
pathname), identical to the header single-shot Put attaches for the same
pathname, so a per-operation provider cannot tell Head from Put. -/
theorem claim_C9 (provider : String → String → String × Option GoErr)
    (envToken baseURL apiVersion pathname : String) (oracle : Oracle) (body : ByteStream)
    (options : PutCommandOptions)
    (htok : (provider "put" pathname).1 ≠ "") :
    ((Client.mk (some provider) envToken baseURL apiVersion).head oracle pathname).2
        = [(Client.mk (some provider) envToken baseURL apiVersion).headRequest pathname]
  ∧ getHeader ((Client.mk (some provider) envToken baseURL apiVersion).headRequest pathname).headers "Authorization"
        = some ("Bearer " ++ (provider "put" pathname).1)
  ∧ (∃ r, (Client.mk (some provider) envToken baseURL apiVersion).singleShotPutRequest pathname body options = .ok r
        ∧ getHeader r.headers "Authorization"
            = getHeader ((Client.mk (some provider) envToken baseURL apiVersion).headRequest pathname).headers "Authorization") := by
  have hres : (Client.mk (some provider) envToken baseURL apiVersion).resolveToken "put" pathname
      = (provider "put" pathname).1 := rfl
  have hauth : getHeader ((Client.mk (some provider) envToken baseURL apiVersion).headRequest pathname).headers "Authorization"
      = some ("Bearer " ++ (provider "put" pathname).1) := by
    unfold Client.headRequest
    rw [addAuthorizationHeaderIgnored_eq, hres, if_neg htok]
    exact getHeader_setHeader_same _ _ _
  refine ⟨head_trace _ oracle pathname, hauth, ?_⟩
  unfold Client.singleShotPutRequest
  rcases hok : (Client.mk (some provider) envToken baseURL apiVersion).addAuthorizationHeader
      (Client.mk (some provider) envToken baseURL apiVersion |>.addAPIVersionHeader
        { method := .put, url := (Client.mk (some provider) envToken baseURL apiVersion).getAPIURL pathname
          query := [], headers := [], body := .bytes body.data }) "put" pathname with he | r
  · exfalso
    unfold Client.addAuthorizationHeader at hok
    rw [hres] at hok
    rw [if_neg htok] at hok
    exact Except.noConfusion hok
  · simp only [hok]
    refine ⟨_, rfl, ?_⟩
    have hfields := addAuthorizationHeader_ok_fields _ _ _ _ _ hok
    rw [getHeader_setPutHeaders _ _ options "Authorization" (by decide) (by decide) (by decide) (by decide)]
    rw [hfields]
    show getHeader (setHeader _ "Authorization" ("Bearer " ++ (Client.mk (some provider) envToken baseURL apiVersion).resolveToken "put" pathname)) "Authorization" = _
    rw [getHeader_setHeader_same, hres, hauth]



set_option maxRecDepth 100000 in
/-- Claim C7: with a non-zero expiry GenerateClientToken does not read the
clock, so fixed inputs give byte-identical output of the form
hex(payload).hex(HMAC-SHA256(secret, payload)); and at the concrete option
pair whose serializations differ in exactly one byte (pathname "a" versus
"b"), the two signatures differ. -/
theorem claim_C7 (secret : String) (options : ClientTokenOptions) (now1 now2 : Int)
    (h : options.ExpiresAt ≠ 0) :
    GenerateClientToken secret options now1 = GenerateClientToken secret options now2
  ∧ GenerateClientToken secret options now1
      = hexEncode (strBytes (marshalClientTokenOptions options)) ++ "."
          ++ hexEncode (hmacSha256 (strBytes secret) (strBytes (marshalClientTokenOptions options)))
  ∧ ((strBytes (marshalClientTokenOptions { Operation := "put", Pathname := "a", ExpiresAt := 1 })).length
        = (strBytes (marshalClientTokenOptions { Operation := "put", Pathname := "b", ExpiresAt := 1 })).length
      ∧ diffCount (strBytes (marshalClientTokenOptions { Operation := "put", Pathname := "a", ExpiresAt := 1 }))
          (strBytes (marshalClientTokenOptions { Operation := "put", Pathname := "b", ExpiresAt := 1 })) = 1
      ∧ hmacSha256 (strBytes "secret") (strBytes (marshalClientTokenOptions { Operation := "put", Pathname := "a", ExpiresAt := 1 }))
          ≠ hmacSha256 (strBytes "secret") (strBytes (marshalClientTokenOptions { Operation := "put", Pathname := "b", ExpiresAt := 1 }))) := by
  refine ⟨?_, ?_, ?_, ?_, ?_⟩
  · unfold GenerateClientToken
    rw [if_neg h, if_neg h]
  · unfold GenerateClientToken
    rw [if_neg h]
  · decide
  · decide
  · decide



/-- Claim C2, amended.  When no token resolves, only List and single-shot Put
fail with the not-authenticated error before sending anything; Head, Delete,
Copy, Download and the multipart create phase discard the authorization error
and send their request anyway, without an Authorization header. -/
theorem claim_C2 (c : Client) (oracle : Oracle) :
    (∀ options : ListCommandOptions, c.resolveToken "list" "" = "" →
        c.list oracle options = (.error (.api ErrNotAuthenticated), []))
  ∧ (∀ (pathname : String) (body : ByteStream) (size : Int) (options : PutCommandOptions),
        pathname.length ≠ 0 → ¬ size > (MultipartThreshold : Int) →
        c.resolveToken "put" pathname = "" →
        c.put oracle pathname body size options = (.error (.api ErrNotAuthenticated), []))
  ∧ (∀ pathname : String, c.resolveToken "put" pathname = "" →
        (c.head oracle pathname).2 = [c.headRequest pathname]
          ∧ getHeader (c.headRequest pathname).headers "Authorization" = none)
  ∧ (∀ (u : String) (us : List String), c.resolveToken "delete" u = "" →
        (c.delete oracle (u :: us)).2 = [c.deleteHttpRequest (u :: us)]
          ∧ getHeader (c.deleteHttpRequest (u :: us)).headers "Authorization" = none)
  ∧ (∀ (fromURL toPath : String) (options : PutCommandOptions),
        fromURL.length ≠ 0 → toPath.length ≠ 0 → c.resolveToken "put" toPath = "" →
        (c.copy oracle fromURL toPath options).2 = [c.copyRequest fromURL toPath options]
          ∧ getHeader (c.copyRequest fromURL toPath options).headers "Authorization" = none)
  ∧ (∀ (urlPath : String) (options : DownloadCommandOptions), c.resolveToken "download" urlPath = "" →
        (c.download oracle urlPath options).2 = [c.downloadRequest urlPath options]
          ∧ getHeader (c.downloadRequest urlPath options).headers "Authorization" = none)
  ∧ (∀ (pathname : String) (body : ByteStream) (options : PutCommandOptions),
        c.resolveToken "put" pathname = "" →
        (c.putMultipart oracle pathname body options).2.head? = some (c.createMpuRequest pathname options)
          ∧ getHeader (c.createMpuRequest pathname options).headers "Authorization" = none) := by
  refine ⟨?_, ?_, ?_, ?_, ?_, ?_, ?_⟩
  · intro options htok
    unfold Client.list Client.listRequest Client.addAuthorizationHeader
    rw [htok]
    simp
  · intro pathname body size options hpath hsize htok
    unfold Client.put
    rw [if_neg hpath, if_neg hsize]
    unfold Client.singleShotPutRequest Client.addAuthorizationHeader
    rw [htok]
    simp
  · intro pathname htok
    exact ⟨head_trace c oracle pathname, headRequest_noAuth c pathname htok⟩
  · intro u us htok
    constructor
    · unfold Client.delete
      rw [if_neg (by simp)]
      by_cases hs : (oracle (c.deleteHttpRequest (u :: us))).statusCode = 200 <;> simp [hs]
    · exact deleteHttpRequest_noAuth c (u :: us) htok
  · intro fromURL toPath options hfrom hto htok
    constructor
    · unfold Client.copy
      rw [if_neg hfrom, if_neg hto]
      by_cases hs : (oracle (c.copyRequest fromURL toPath options)).statusCode = 200 <;> simp [hs]
    · exact copyRequest_noAuth c fromURL toPath options htok
  · intro urlPath options htok
    constructor
    · unfold Client.download
      by_cases hs : (oracle (c.downloadRequest urlPath options)).statusCode = 200
      · simp [hs]
      · by_cases hs2 : (oracle (c.downloadRequest urlPath options)).statusCode = 206 <;> simp [hs, hs2]
    · exact downloadRequest_noAuth c urlPath options htok
  · intro pathname body options htok
    exact ⟨putMultipart_trace_head c oracle pathname body options, createMpuRequest_noAuth c pathname options htok⟩

/-- Claim C2 counterexample: with no provider and an empty environment token,
Head still sends its request (one request in the trace, with no Authorization
header) and succeeds on a 200 response, instead of failing with the
not-authenticated error and sending nothing. -/
theorem claim_C2_counterexample :
    ((envClient "").head
        (constOracle { emptyResponse with headBody := some { URL := "https://blob/f", Size := 3, UploadedAt := 0, Pathname := "f", ContentType := "", ContentDisposition := "", CacheControl := "" } }) "f").1
      = .ok { URL := "https://blob/f", Size := 3, UploadedAt := 0, Pathname := "f", ContentType := "", ContentDisposition := "", CacheControl := "" }
  ∧ ((envClient "").head
        (constOracle { emptyResponse with headBody := some { URL := "https://blob/f", Size := 3, UploadedAt := 0, Pathname := "f", ContentType := "", ContentDisposition := "", CacheControl := "" } }) "f").2.length = 1
  ∧ getHeader (((envClient "").head
        (constOracle { emptyResponse with headBody := some { URL := "https://blob/f", Size := 3, UploadedAt := 0, Pathname := "f", ContentType := "", ContentDisposition := "", CacheControl := "" } }) "f").2.headD
          { method := .get, url := "", query := [], headers := [], body := .empty }).headers "Authorization" = none := by
  refine ⟨rfl, rfl, rfl⟩



/-- On a non-empty stream the loop's first request uploads the first chunk. -/
theorem mpuUploadLoop_trace_head (c : Client) (oracle : Oracle) (pathname uploadID key : String)
    (s : ByteStream) (p : Nat) (parts : List Part) (hne : s.data ≠ []) :
    (c.mpuUploadLoop oracle pathname uploadID key s p parts).2.head?
      = some (c.uploadPartRequest pathname uploadID key p (s.data.take MultipartThreshold)) := by
  rw [Client.mpuUploadLoop.eq_def]
  by_cases hth : MultipartThreshold ≤ s.data.length
  · rw [dif_pos hth]
    by_cases hst : (oracle (c.uploadPartRequest pathname uploadID key p (s.data.take MultipartThreshold))).statusCode = 200
    · simp [hst]
    · simp [hst]
  · rw [dif_neg hth]
    have htake : s.data.take MultipartThreshold = s.data :=
      List.take_of_length_le (Nat.le_of_lt (Nat.lt_of_not_le hth))
    have hpos : 0 < s.data.length := List.length_pos.mpr hne
    rw [htake]
    by_cases hst : (oracle (c.uploadPartRequest pathname uploadID key p s.data)).statusCode = 200
    · cases herr : s.readErr <;> simp [hpos, hst, herr]
    · simp [hpos, hst]

/-- setPutHeaders only touches headers. -/
theorem setPutHeaders_fields (c : Client) (req : Request) (options : PutCommandOptions) :
    (c.setPutHeaders req options).method = req.method
      ∧ (c.setPutHeaders req options).url = req.url
      ∧ (c.setPutHeaders req options).query = req.query
      ∧ (c.setPutHeaders req options).body = req.body := by
  unfold Client.setPutHeaders
  by_cases ha : options.AddRandomSuffix <;>
  by_cases hb : options.ContentType ≠ "" <;>
  by_cases hc : options.CacheControlMaxAge > 0 <;>
  simp [ha, hb, hc]

/-- Claim C10: in a multipart upload a 200 create response whose body fails to
decode leaves the session at the zero value, and the coordinator carries on:
its next request uploads part 1 with empty X-MPU-Upload-Id and X-MPU-Key
headers; and a 200 complete response whose body fails to decode yields the
zero-valued put result with no error. -/
theorem claim_C10 (c : Client) (oracle : Oracle) (pathname : String) (body : ByteStream)
    (options : PutCommandOptions) :
    ((oracle (c.createMpuRequest pathname options)).statusCode = 200 →
     (oracle (c.createMpuRequest pathname options)).createBody = none →
     body.data ≠ [] →
       ∃ rest, (c.putMultipart oracle pathname body options).2
           = c.createMpuRequest pathname options
               :: c.uploadPartRequest pathname "" "" 1 (body.data.take MultipartThreshold) :: rest
         ∧ getHeader (c.uploadPartRequest pathname "" "" 1 (body.data.take MultipartThreshold)).headers "X-MPU-Upload-Id" = some ""
         ∧ getHeader (c.uploadPartRequest pathname "" "" 1 (body.data.take MultipartThreshold)).headers "X-MPU-Key" = some "")
  ∧ ((oracle (c.createMpuRequest pathname options)).statusCode = 200 →
     (∀ p chunk, (oracle (c.uploadPartRequest pathname (c.mpuSession oracle pathname options).UploadID (c.mpuSession oracle pathname options).Key p chunk)).statusCode = 200) →
     body.readErr = none →
     (oracle (c.completeMpuRequest pathname (c.mpuSession oracle pathname options).UploadID (c.mpuSession oracle pathname options).Key (c.partsFrom oracle pathname (c.mpuSession oracle pathname options).UploadID (c.mpuSession oracle pathname options).Key 1 (mpuChunks body.data)))).statusCode = 200 →
     (oracle (c.completeMpuRequest pathname (c.mpuSession oracle pathname options).UploadID (c.mpuSession oracle pathname options).Key (c.partsFrom oracle pathname (c.mpuSession oracle pathname options).UploadID (c.mpuSession oracle pathname options).Key 1 (mpuChunks body.data)))).putResultBody = none →
       (c.putMultipart oracle pathname body options).1 = .ok zeroPutResult) := by
  constructor
  · intro hcreate hdecode hne
    have hsess : c.mpuSession oracle pathname options = { UploadID := "", Key := "" } := by
      rw [Client.mpuSession, hdecode]
      rfl
    have hhead := mpuUploadLoop_trace_head c oracle pathname
      (c.mpuSession oracle pathname options).UploadID (c.mpuSession oracle pathname options).Key body 1 [] hne
    unfold Client.putMultipart
    simp only [hcreate, ne_eq, not_true_eq_false, ite_false, if_false]
    rw [mpuSession_fold]
    rcases hloop : c.mpuUploadLoop oracle pathname (c.mpuSession oracle pathname options).UploadID (c.mpuSession oracle pathname options).Key body 1 [] with ⟨res, ltrace⟩
    rw [hloop] at hhead
    simp only at hhead
    rcases res with e | parts
    · rcases ltrace with _ | ⟨r0, ltail⟩
      · exact absurd hhead (by simp)
      · simp only [List.head?_cons, Option.some.injEq] at hhead
        refine ⟨ltail, ?_, ?_, ?_⟩
        · simp only [hloop]
          rw [hhead, hsess]
        · rw [(uploadPartRequest_headers c pathname "" "" 1 (body.data.take MultipartThreshold)).2.1]
        · rw [(uploadPartRequest_headers c pathname "" "" 1 (body.data.take MultipartThreshold)).2.2.1]
    · rcases ltrace with _ | ⟨r0, ltail⟩
      · exact absurd hhead (by simp)
      · simp only [List.head?_cons, Option.some.injEq] at hhead
        refine ⟨ltail ++ [c.completeMpuRequest pathname (c.mpuSession oracle pathname options).UploadID (c.mpuSession oracle pathname options).Key parts], ?_, ?_, ?_⟩
        · simp only [hloop, apply_ite Prod.snd, ite_self]
          rw [hhead, hsess]
          simp
        · rw [(uploadPartRequest_headers c pathname "" "" 1 (body.data.take MultipartThreshold)).2.1]
        · rw [(uploadPartRequest_headers c pathname "" "" 1 (body.data.take MultipartThreshold)).2.2.1]
  · intro hcreate h200 hclean hcomp hdecode
    rw [putMultipart_completeOk c oracle pathname body options hcreate h200 hclean hcomp]
    simp [hdecode]



/-- Claim C1: with a resolvable token and a non-empty pathname, a body of
known size at most the 5 MiB threshold makes Put issue exactly one request,
the single-shot PUT to the pathname with no multipart action header; a known
size above the threshold makes Put run the multipart path, on which every
request carries an X-MPU-Action header (so no raw single-shot PUT is ever
sent), and when the probe is truthful and every response is 200 the trace is
exactly create, then at least one part upload, then complete. -/
theorem claim_C1 (c : Client) (oracle : Oracle) (pathname : String) (body : ByteStream)
    (size : Int) (options : PutCommandOptions) (hpath : pathname.length ≠ 0) :
    (c.resolveToken "put" pathname ≠ "" → size ≤ (MultipartThreshold : Int) →
       ∃ r, c.singleShotPutRequest pathname body options = .ok r
         ∧ (c.put oracle pathname body size options).2 = [r]
         ∧ r.method = .put ∧ r.url = c.getAPIURL pathname
         ∧ getHeader r.headers "X-MPU-Action" = none)
  ∧ (size > (MultipartThreshold : Int) →
       ∀ r ∈ (c.put oracle pathname body size options).2,
         getHeader r.headers "X-MPU-Action" ≠ none)
  ∧ (size > (MultipartThreshold : Int) → size = (body.data.length : Int) → body.readErr = none →
     (∀ req, (oracle req).statusCode = 200) →
       (c.put oracle pathname body size options).2
           = c.createMpuRequest pathname options
               :: c.uploadReqsFrom pathname (c.mpuSession oracle pathname options).UploadID (c.mpuSession oracle pathname options).Key 1 (mpuChunks body.data)
               ++ [c.completeMpuRequest pathname (c.mpuSession oracle pathname options).UploadID (c.mpuSession oracle pathname options).Key (c.partsFrom oracle pathname (c.mpuSession oracle pathname options).UploadID (c.mpuSession oracle pathname options).Key 1 (mpuChunks body.data))]
         ∧ c.uploadReqsFrom pathname (c.mpuSession oracle pathname options).UploadID (c.mpuSession oracle pathname options).Key 1 (mpuChunks body.data) ≠ []) := by
  refine ⟨?_, ?_, ?_⟩
  · intro htok hsize
    unfold Client.put
    rw [if_neg hpath, if_neg (by omega)]
    unfold Client.singleShotPutRequest
    rcases hok : c.addAuthorizationHeader (c.addAPIVersionHeader { method := .put, url := c.getAPIURL pathname, query := [], headers := [], body := .bytes body.data }) "put" pathname with he | r0
    · exfalso
      unfold Client.addAuthorizationHeader at hok
      rw [if_neg htok] at hok
      exact Except.noConfusion hok
    · simp only [hok]
      refine ⟨_, rfl, ?_, ?_, ?_, ?_⟩
      · by_cases hs : (oracle (c.setPutHeaders r0 options)).statusCode = 200
        · cases hb : (oracle (c.setPutHeaders r0 options)).putResultBody <;> simp [hs, hb]
        · simp [hs]
      · rw [(setPutHeaders_fields c r0 options).1, (addAuthorizationHeader_ok_fields c _ r0 "put" pathname hok)]
        rfl
      · rw [(setPutHeaders_fields c r0 options).2.1, (addAuthorizationHeader_ok_fields c _ r0 "put" pathname hok)]
        rfl
      · rw [getHeader_setPutHeaders c r0 options "X-MPU-Action" (by decide) (by decide) (by decide) (by decide)]
        rw [(addAuthorizationHeader_ok_fields c _ r0 "put" pathname hok)]
        show getHeader (setHeader _ "Authorization" _) "X-MPU-Action" = none
        rw [getHeader_setHeader_ne _ _ _ _ (by decide)]
        simp [Client.addAPIVersionHeader, setHeader, getHeader]
  · intro hsize r hr
    unfold Client.put at hr
    rw [if_neg hpath, if_pos hsize] at hr
    rcases putMultipart_trace_shape c oracle pathname body options r hr with h | ⟨q, chunk, h⟩ | ⟨parts, h⟩
    · rw [h, createMpuRequest_action]
      simp
    · rw [h, uploadPartRequest_action]
      simp
    · rw [h, completeMpuRequest_action]
      simp
  · intro hsize hsize2 hclean h200
    have hne : body.data ≠ [] := by
      intro h
      rw [h] at hsize2
      simp at hsize2
      omega
    unfold Client.put
    rw [if_neg hpath, if_pos hsize]
    constructor
    · rw [putMultipart_completeOk c oracle pathname body options (h200 _) (fun p chunk => h200 _) hclean (h200 _)]
    · intro h
      have := uploadReqsFrom_length c pathname (c.mpuSession oracle pathname options).UploadID (c.mpuSession oracle pathname options).Key (mpuChunks body.data) 1
      rw [h] at this
      simp at this
      exact mpuChunks_ne_nil body.data hne (List.length_eq_zero.mp this.symm)



/-- Claim C3: on a clean stream with every response 200, the multipart trace
is create, one upload per chunk, complete; the accumulated parts carry the
part numbers 1..N exactly (no gaps, strictly increasing), as do the
X-MPU-Part-Number headers of the upload requests in issue order; the uploaded
bodies are exactly the chunks of the input; every chunk is non-empty and at
most the threshold, and the chunks concatenate back to the input, so a
zero-byte final read adds no empty part and a short trailing read is uploaded
as one final part of reduced size. -/
theorem claim_C3 (c : Client) (oracle : Oracle) (pathname : String) (body : ByteStream)
    (options : PutCommandOptions) (hclean : body.readErr = none)
    (h200 : ∀ req, (oracle req).statusCode = 200) :
    (c.putMultipart oracle pathname body options).2
        = c.createMpuRequest pathname options
            :: c.uploadReqsFrom pathname (c.mpuSession oracle pathname options).UploadID (c.mpuSession oracle pathname options).Key 1 (mpuChunks body.data)
            ++ [c.completeMpuRequest pathname (c.mpuSession oracle pathname options).UploadID (c.mpuSession oracle pathname options).Key (c.partsFrom oracle pathname (c.mpuSession oracle pathname options).UploadID (c.mpuSession oracle pathname options).Key 1 (mpuChunks body.data))]
  ∧ (c.partsFrom oracle pathname (c.mpuSession oracle pathname options).UploadID (c.mpuSession oracle pathname options).Key 1 (mpuChunks body.data)).map Part.PartNumber
        = List.range' 1 (mpuChunks body.data).length
  ∧ (c.uploadReqsFrom pathname (c.mpuSession oracle pathname options).UploadID (c.mpuSession oracle pathname options).Key 1 (mpuChunks body.data)).map (fun r => getHeader r.headers "X-MPU-Part-Number")
        = (List.range' 1 (mpuChunks body.data).length).map (fun k => some (toString k))
  ∧ (c.uploadReqsFrom pathname (c.mpuSession oracle pathname options).UploadID (c.mpuSession oracle pathname options).Key 1 (mpuChunks body.data)).map Request.body
        = (mpuChunks body.data).map RequestBody.bytes
  ∧ (∀ ch ∈ mpuChunks body.data, ch ≠ [] ∧ ch.length ≤ MultipartThreshold)
  ∧ (mpuChunks body.data).flatten = body.data := by
  refine ⟨?_, ?_, ?_, ?_, ?_, ?_⟩
  · rw [putMultipart_completeOk c oracle pathname body options (h200 _) (fun p chunk => h200 _) hclean (h200 _)]
  · exact partsFrom_map_partNumber c oracle pathname _ _ (mpuChunks body.data) 1
  · exact uploadReqsFrom_map_partNumberHeader c pathname _ _ (mpuChunks body.data) 1
  · exact uploadReqsFrom_map_body c pathname _ _ (mpuChunks body.data) 1
  · exact (mpuChunks_props body.data.length body.data (Nat.le_refl _)).1
  · exact (mpuChunks_props body.data.length body.data (Nat.le_refl _)).2



/-- Claim C5, amended.  A non-200 response at create aborts with its mapped
error after only the create request; a non-200 response at the upcoming part
upload aborts the loop with its mapped error after only that request (at any
loop state, hence at any part); a non-200 complete response aborts with its
mapped error and nothing follows it; a read failure other than clean
end-of-stream aborts with that reader error and no complete request is issued,
but the bytes returned by the failing read, if any, are first uploaded as one
final part (the trace is create followed by one upload per non-empty chunk,
the last chunk coming from the failing read); no rollback or other action is
ever issued (every request carries a create, upload or complete action); and
every abort returns an error, never a partial result. -/
theorem claim_C5 (c : Client) (oracle : Oracle) (pathname : String) (body : ByteStream)
    (options : PutCommandOptions) :
    ((oracle (c.createMpuRequest pathname options)).statusCode ≠ 200 →
       c.putMultipart oracle pathname body options
         = (.error (handleError (oracle (c.createMpuRequest pathname options))),
            [c.createMpuRequest pathname options]))
  ∧ (∀ (uploadID key : String) (s : ByteStream) (p : Nat) (parts : List Part),
       s.data ≠ [] →
       (oracle (c.uploadPartRequest pathname uploadID key p (s.data.take MultipartThreshold))).statusCode ≠ 200 →
       c.mpuUploadLoop oracle pathname uploadID key s p parts
         = (.error (handleError (oracle (c.uploadPartRequest pathname uploadID key p (s.data.take MultipartThreshold)))),
            [c.uploadPartRequest pathname uploadID key p (s.data.take MultipartThreshold)]))
  ∧ ((oracle (c.createMpuRequest pathname options)).statusCode = 200 →
     (∀ p chunk, (oracle (c.uploadPartRequest pathname (c.mpuSession oracle pathname options).UploadID (c.mpuSession oracle pathname options).Key p chunk)).statusCode = 200) →
     body.readErr = none →
     (oracle (c.completeMpuRequest pathname (c.mpuSession oracle pathname options).UploadID (c.mpuSession oracle pathname options).Key (c.partsFrom oracle pathname (c.mpuSession oracle pathname options).UploadID (c.mpuSession oracle pathname options).Key 1 (mpuChunks body.data)))).statusCode ≠ 200 →
       c.putMultipart oracle pathname body options
         = (.error (handleError (oracle (c.completeMpuRequest pathname (c.mpuSession oracle pathname options).UploadID (c.mpuSession oracle pathname options).Key (c.partsFrom oracle pathname (c.mpuSession oracle pathname options).UploadID (c.mpuSession oracle pathname options).Key 1 (mpuChunks body.data))))),
            c.createMpuRequest pathname options
              :: c.uploadReqsFrom pathname (c.mpuSession oracle pathname options).UploadID (c.mpuSession oracle pathname options).Key 1 (mpuChunks body.data)
              ++ [c.completeMpuRequest pathname (c.mpuSession oracle pathname options).UploadID (c.mpuSession oracle pathname options).Key (c.partsFrom oracle pathname (c.mpuSession oracle pathname options).UploadID (c.mpuSession oracle pathname options).Key 1 (mpuChunks body.data))]))
  ∧ (∀ m : String, (oracle (c.createMpuRequest pathname options)).statusCode = 200 →
     (∀ p chunk, (oracle (c.uploadPartRequest pathname (c.mpuSession oracle pathname options).UploadID (c.mpuSession oracle pathname options).Key p chunk)).statusCode = 200) →
     body.readErr = some m →
       c.putMultipart oracle pathname body options
         = (.error (.readError m),
            c.createMpuRequest pathname options
              :: c.uploadReqsFrom pathname (c.mpuSession oracle pathname options).UploadID (c.mpuSession oracle pathname options).Key 1 (mpuChunks body.data)))
  ∧ (∀ r ∈ (c.putMultipart oracle pathname body options).2,
       getHeader r.headers "X-MPU-Action" = some "create"
         ∨ getHeader r.headers "X-MPU-Action" = some "upload"
         ∨ getHeader r.headers "X-MPU-Action" = some "complete")
  ∧ (∀ e res, c.putMultipart oracle pathname body options = res → res.1 = .error e →
       ∀ result, res.1 ≠ .ok result) := by
  refine ⟨?_, ?_, ?_, ?_, ?_, ?_⟩
  · intro hfail
    exact putMultipart_createFail c oracle pathname body options hfail
  · intro uploadID key s p parts hne hfail
    exact mpuUploadLoop_firstFail c oracle pathname uploadID key s p parts hne hfail
  · intro hcreate h200 hclean hcomp
    exact putMultipart_completeFail c oracle pathname body options hcreate h200 hclean hcomp
  · intro m hcreate h200 herr
    exact putMultipart_readErr c oracle pathname m body options hcreate h200 herr
  · intro r hr
    rcases putMultipart_trace_shape c oracle pathname body options r hr with h | ⟨q, chunk, h⟩ | ⟨parts, h⟩
    · exact Or.inl (by rw [h, createMpuRequest_action])
    · exact Or.inr (Or.inl (by rw [h, uploadPartRequest_action]))
    · exact Or.inr (Or.inr (by rw [h, completeMpuRequest_action]))
  · intro e res _ herr result
    rw [herr]
    exact fun h => Except.noConfusion h

/-- Claim C5 counterexample: over a reader that yields 3 bytes and then fails
with error "boom" (all responses 200), the multipart upload returns the read
error, but only after issuing a second request, the upload of the 3 bytes
returned by the failing read; the claim as stated requires no request after
the read failure, i.e. a trace of only the create request. -/
theorem claim_C5_counterexample :
    ((envClient "tok").putMultipart (constOracle mpuOkResponse) "f"
        { data := [1, 2, 3], readErr := some "boom" } defaultPutOptions).1
      = .error (.readError "boom")
  ∧ ((envClient "tok").putMultipart (constOracle mpuOkResponse) "f"
        { data := [1, 2, 3], readErr := some "boom" } defaultPutOptions).2.length = 2
  ∧ ((envClient "tok").putMultipart (constOracle mpuOkResponse) "f"
        { data := [1, 2, 3], readErr := some "boom" } defaultPutOptions).2
      ≠ [(envClient "tok").createMpuRequest "f" defaultPutOptions] := by
  have h := putMultipart_readErr (envClient "tok") (constOracle mpuOkResponse) "f" "boom"
    { data := [1, 2, 3], readErr := some "boom" } defaultPutOptions rfl (fun p chunk => rfl) rfl
  have hchunks : mpuChunks [1, 2, 3] = [[1, 2, 3]] :=
    mpuChunks_small [1, 2, 3] (by decide) (by decide)
  rw [hchunks] at h
  rw [h]
  refine ⟨rfl, rfl, by decide⟩



/-- Witness for claim C2 at a concrete tokenless client. -/
theorem claim_C2_witness :
    (envClient "").list (constOracle emptyResponse) { Limit := 0, Pfx := "", Cursor := "", Mode := "" }
        = (.error (.api ErrNotAuthenticated), [])
  ∧ ((envClient "").head (constOracle emptyResponse) "f").2 = [(envClient "").headRequest "f"]
  ∧ getHeader ((envClient "").headRequest "f").headers "Authorization" = none :=
  ⟨(claim_C2 (envClient "") (constOracle emptyResponse)).1 _ rfl,
   ((claim_C2 (envClient "") (constOracle emptyResponse)).2.2.1 "f" rfl).1,
   ((claim_C2 (envClient "") (constOracle emptyResponse)).2.2.1 "f" rfl).2⟩

/-- Witness for claim C4 at concrete responses: a 503 maps to the unknown
error from the status text, a recognized code to its typed error, and an
unrecognized code to the unknown error carrying the message. -/
theorem claim_C4_witness :
    handleError { emptyResponse with statusCode := 503 }
        = .api (NewUnknownError 503 (statusText 503))
  ∧ handleError { emptyResponse with statusCode := 403, errorBody := some { error := { code := "forbidden", message := "x" } } }
        = .api ErrForbidden
  ∧ handleError { emptyResponse with statusCode := 402, errorBody := some { error := { code := "weird", message := "m" } } }
        = .api (NewUnknownError 402 "m") := by
  refine ⟨(claim_C4 { emptyResponse with statusCode := 503 }).1 (by decide), ?_, ?_⟩
  · exact ((claim_C4 { emptyResponse with statusCode := 403, errorBody := some { error := { code := "forbidden", message := "x" } } }).2.1
      (by decide) { error := { code := "forbidden", message := "x" } } rfl).2.1 rfl
  · exact ((claim_C4 { emptyResponse with statusCode := 402, errorBody := some { error := { code := "weird", message := "m" } } }).2.1
      (by decide) { error := { code := "weird", message := "m" } } rfl).2.2.2.2.2 (by decide)

/-- Witness for claim C6 at one concrete url. -/
theorem claim_C6_witness :
    (envClient "tok").delete (constOracle emptyResponse) [] = (.ok (), [])
  ∧ ((envClient "tok").delete (constOracle emptyResponse) ["https://blob/a"]).2
        = [(envClient "tok").deleteHttpRequest ["https://blob/a"]]
  ∧ ((envClient "tok").deleteHttpRequest ["https://blob/a"]).method = .post
  ∧ ((envClient "tok").deleteHttpRequest ["https://blob/a"]).body = .deleteJson ["https://blob/a"]
  ∧ (envClient "tok").delete (constOracle emptyResponse) ["https://blob/a"]
        = (.ok (), [(envClient "tok").deleteHttpRequest ["https://blob/a"]]) := by
  have h := (claim_C6 (envClient "tok") (constOracle emptyResponse)).2 ["https://blob/a"] (by decide)
  exact ⟨(claim_C6 (envClient "tok") (constOracle emptyResponse)).1, h.1, h.2.1, h.2.2.1, h.2.2.2 rfl⟩

/-- Witness for claim C7: the token for a fixed secret, options and non-zero
expiry does not depend on the clock. -/
theorem claim_C7_witness :
    GenerateClientToken "s" { Operation := "put", Pathname := "p", ExpiresAt := 5 } 0
      = GenerateClientToken "s" { Operation := "put", Pathname := "p", ExpiresAt := 5 } 99 :=
  (claim_C7 "s" { Operation := "put", Pathname := "p", ExpiresAt := 5 } 0 99 (by decide)).1

/-- Witness for claim C8: a 404 whose body carries the code "forbidden" still
returns blob-not-found, while the mapper would have returned forbidden. -/
theorem claim_C8_witness :
    (envClient "tok").head (constOracle { emptyResponse with statusCode := 404, errorBody := some { error := { code := "forbidden", message := "x" } } }) "f"
        = (.error (.api ErrBlobNotFound), [(envClient "tok").headRequest "f"])
  ∧ handleError { emptyResponse with statusCode := 404, errorBody := some { error := { code := "forbidden", message := "x" } } }
        = .api ErrForbidden :=
  ⟨(claim_C8 (envClient "tok") (constOracle { emptyResponse with statusCode := 404, errorBody := some { error := { code := "forbidden", message := "x" } } }) "f").1 rfl,
   rfl⟩

/-- Witness for claim C9: a provider that echoes the operation string makes
Head send the bearer token "put". -/
theorem claim_C9_witness :
    getHeader ((Client.mk (some (fun op _ => (op, none))) "" DefaultBaseURL BlobAPIVersion).headRequest "x").headers "Authorization"
      = some "Bearer put" :=
  (claim_C9 (fun op _ => (op, none)) "" DefaultBaseURL BlobAPIVersion "x"
    (constOracle emptyResponse) { data := [], readErr := none } defaultPutOptions (by decide)).2.1

/-- Witness for claim C5 at a concrete failing create: a 503 at create aborts
after exactly that one request, with the mapped unknown error. -/
theorem claim_C5_witness :
    ((envClient "tok").putMultipart (constOracle { emptyResponse with statusCode := 503 }) "f"
        { data := [1], readErr := none } defaultPutOptions).1
      = .error (.api (NewUnknownError 503 (statusText 503)))
  ∧ ((envClient "tok").putMultipart (constOracle { emptyResponse with statusCode := 503 }) "f"
        { data := [1], readErr := none } defaultPutOptions).2
      = [(envClient "tok").createMpuRequest "f" defaultPutOptions] := by
  have h := (claim_C5 (envClient "tok") (constOracle { emptyResponse with statusCode := 503 }) "f"
    { data := [1], readErr := none } defaultPutOptions).1 (by decide)
  exact ⟨by rw [h]; rfl, by rw [h]⟩

/-- Witness for claim C10 at a one-byte stream whose create and complete
bodies fail to decode. -/
theorem claim_C10_witness :
    (∃ rest, ((envClient "tok").putMultipart (constOracle { emptyResponse with etag := "E" }) "f"
          { data := [7], readErr := none } defaultPutOptions).2
        = (envClient "tok").createMpuRequest "f" defaultPutOptions
            :: (envClient "tok").uploadPartRequest "f" "" "" 1 ([7].take MultipartThreshold) :: rest
      ∧ getHeader ((envClient "tok").uploadPartRequest "f" "" "" 1 ([7].take MultipartThreshold)).headers "X-MPU-Upload-Id" = some ""
      ∧ getHeader ((envClient "tok").uploadPartRequest "f" "" "" 1 ([7].take MultipartThreshold)).headers "X-MPU-Key" = some "")
  ∧ ((envClient "tok").putMultipart (constOracle { emptyResponse with etag := "E" }) "f"
        { data := [7], readErr := none } defaultPutOptions).1 = .ok zeroPutResult :=
  ⟨(claim_C10 (envClient "tok") (constOracle { emptyResponse with etag := "E" }) "f"
      { data := [7], readErr := none } defaultPutOptions).1 rfl rfl (by decide),
   (claim_C10 (envClient "tok") (constOracle { emptyResponse with etag := "E" }) "f"
      { data := [7], readErr := none } defaultPutOptions).2 rfl (fun p chunk => rfl) rfl rfl rfl⟩



/-- Witness for claim C1: a 3-byte body of known size 3 goes out as one
single-shot PUT; a body one byte over the threshold with a truthful size probe
runs create, at least one upload, complete. -/
theorem claim_C1_witness :
    (∃ r, (envClient "tok").singleShotPutRequest "f" { data := [1, 2, 3], readErr := none } defaultPutOptions = .ok r
       ∧ ((envClient "tok").put (constOracle mpuOkResponse) "f" { data := [1, 2, 3], readErr := none } 3 defaultPutOptions).2 = [r]
       ∧ r.method = .put ∧ r.url = (envClient "tok").getAPIURL "f"
       ∧ getHeader r.headers "X-MPU-Action" = none)
  ∧ (((envClient "tok").put (constOracle mpuOkResponse) "f" { data := List.replicate (MultipartThreshold + 1) 0, readErr := none } ((MultipartThreshold : Int) + 1) defaultPutOptions).2
       = (envClient "tok").createMpuRequest "f" defaultPutOptions
           :: (envClient "tok").uploadReqsFrom "f" ((envClient "tok").mpuSession (constOracle mpuOkResponse) "f" defaultPutOptions).UploadID ((envClient "tok").mpuSession (constOracle mpuOkResponse) "f" defaultPutOptions).Key 1 (mpuChunks (List.replicate (MultipartThreshold + 1) 0))
           ++ [(envClient "tok").completeMpuRequest "f" ((envClient "tok").mpuSession (constOracle mpuOkResponse) "f" defaultPutOptions).UploadID ((envClient "tok").mpuSession (constOracle mpuOkResponse) "f" defaultPutOptions).Key ((envClient "tok").partsFrom (constOracle mpuOkResponse) "f" ((envClient "tok").mpuSession (constOracle mpuOkResponse) "f" defaultPutOptions).UploadID ((envClient "tok").mpuSession (constOracle mpuOkResponse) "f" defaultPutOptions).Key 1 (mpuChunks (List.replicate (MultipartThreshold + 1) 0)))]
     ∧ (envClient "tok").uploadReqsFrom "f" ((envClient "tok").mpuSession (constOracle mpuOkResponse) "f" defaultPutOptions).UploadID ((envClient "tok").mpuSession (constOracle mpuOkResponse) "f" defaultPutOptions).Key 1 (mpuChunks (List.replicate (MultipartThreshold + 1) 0)) ≠ []) := by
  constructor
  · exact (claim_C1 (envClient "tok") (constOracle mpuOkResponse) "f"
      { data := [1, 2, 3], readErr := none } 3 defaultPutOptions (by decide)).1 (by decide) (by decide)
  · exact (claim_C1 (envClient "tok") (constOracle mpuOkResponse) "f"
      { data := List.replicate (MultipartThreshold + 1) 0, readErr := none }
      ((MultipartThreshold : Int) + 1) defaultPutOptions (by decide)).2.2 (by decide)
      (by simp) rfl (fun req => rfl)

/-- Witness for claim C3 at a concrete 3-byte stream (one chunk). -/
theorem claim_C3_witness :
    ((envClient "tok").putMultipart (constOracle mpuOkResponse) "f" { data := [1, 2, 3], readErr := none } defaultPutOptions).2
        = (envClient "tok").createMpuRequest "f" defaultPutOptions
            :: (envClient "tok").uploadReqsFrom "f" ((envClient "tok").mpuSession (constOracle mpuOkResponse) "f" defaultPutOptions).UploadID ((envClient "tok").mpuSession (constOracle mpuOkResponse) "f" defaultPutOptions).Key 1 (mpuChunks [1, 2, 3])
            ++ [(envClient "tok").completeMpuRequest "f" ((envClient "tok").mpuSession (constOracle mpuOkResponse) "f" defaultPutOptions).UploadID ((envClient "tok").mpuSession (constOracle mpuOkResponse) "f" defaultPutOptions).Key ((envClient "tok").partsFrom (constOracle mpuOkResponse) "f" ((envClient "tok").mpuSession (constOracle mpuOkResponse) "f" defaultPutOptions).UploadID ((envClient "tok").mpuSession (constOracle mpuOkResponse) "f" defaultPutOptions).Key 1 (mpuChunks [1, 2, 3]))]
  ∧ ((envClient "tok").partsFrom (constOracle mpuOkResponse) "f" ((envClient "tok").mpuSession (constOracle mpuOkResponse) "f" defaultPutOptions).UploadID ((envClient "tok").mpuSession (constOracle mpuOkResponse) "f" defaultPutOptions).Key 1 (mpuChunks [1, 2, 3])).map Part.PartNumber
        = List.range' 1 (mpuChunks [1, 2, 3]).length
  ∧ (∀ ch ∈ mpuChunks [1, 2, 3], ch ≠ [] ∧ ch.length ≤ MultipartThreshold)
  ∧ (mpuChunks [1, 2, 3]).flatten = [1, 2, 3] := by
  have h := claim_C3 (envClient "tok") (constOracle mpuOkResponse) "f"
    { data := [1, 2, 3], readErr := none } defaultPutOptions rfl (fun req => rfl)
  exact ⟨h.1, h.2.1, h.2.2.2.2.1, h.2.2.2.2.2⟩

end VercelBlob
